import Mathlib

/-
Verification development for the OR-Tools-MILP school-timetabling repository.

The embedding translates, from the Python sources,
  - the input-data container `InputData` (src/input_data.py),
  - the feasibility pre-validator `_validate_input_data`
    (src/rasp_or_tools.py, lines 92-477),
  - the hard-constraint families emitted by `build_and_solve_with_or_tools`
    (src/rasp_or_tools.py, lines 482-843), as a boolean satisfaction checker
    over an assignment of the model's decision variables,
  - the data-mutation and control-flow effects of a call to
    `build_and_solve_with_or_tools` (validation / KeyError / AttributeError),
  - the objective/solve section (lines 1030-1057),
  - the two "compactness" encodings: block-start counting from the PuLP
    variant (src/rasp7.py, lines 267-281) and the prefix/suffix/inside
    chain (src/rasp_or_tools.py, lines 886-916).

Python dictionaries and sets are modelled as association lists / lists;
lookups take the first matching key except where the source's dict
comprehension makes the last occurrence win (noted at the definition).
Python's dynamic type checks (isinstance) cannot fail in the typed
embedding and are omitted where they guard nothing else.
-/

namespace Rasp

/-- Boolean-to-count coercion: a CP-SAT boolean used inside a linear sum. -/
def b2n (b : Bool) : Nat := if b then 1 else 0

/-- Membership test on a list, as a Bool (python `in` on a list or set). -/
def memB [DecidableEq α] (a : α) (l : List α) : Bool :=
  l.any (fun b => decide (b = a))

/-- First-match association-list lookup (python dict lookup `d[k]` / `d.get(k)`). -/
def find? [DecidableEq κ] (l : List (κ × ν)) (k : κ) : Option ν :=
  match l with
  | [] => none
  | (k', v) :: t => if k' = k then some v else find? t k

/-- Python `d.get(k, default)`. -/
def getD [DecidableEq κ] (l : List (κ × ν)) (k : κ) (v : ν) : ν :=
  (find? l k).getD v

/-- Python `k in d` for a dict modelled as an association list. -/
def containsKey [DecidableEq κ] (l : List (κ × ν)) (k : κ) : Bool :=
  (find? l k).isSome

/-- Insert into a list sorted by the strict order `lt` (helper for `insSortBy`). -/
def insertBy (lt : α → α → Bool) (a : α) : List α → List α
  | [] => [a]
  | b :: t => if lt a b then a :: b :: t else b :: insertBy lt a t

/-- Insertion sort by the strict order `lt` (python `sorted`). -/
def insSortBy (lt : α → α → Bool) : List α → List α
  | [] => []
  | a :: t => insertBy lt a (insSortBy lt t)

/-- The set of elements occurring at least twice, sorted (python `dups` inside
the validator: collects repeated elements into a set and returns them sorted). -/
def dupsB [DecidableEq α] (lt : α → α → Bool) (l : List α) : List α :=
  insSortBy lt (l.dedup.filter (fun a => 2 ≤ l.count a))

/-- All index-ordered pairs of a list (python `itertools.combinations(l, 2)`). -/
def listPairs : List α → List (α × α)
  | [] => []
  | a :: t => t.map (fun b => (a, b)) ++ listPairs t

/-- Concatenation of `f` over a list (shape of the validator's accumulating loops). -/
def flatList (f : α → List β) : List α → List β
  | [] => []
  | a :: t => f a ++ flatList f t

theorem mem_insertBy {lt : α → α → Bool} {a x : α} {l : List α} :
    x ∈ insertBy lt a l ↔ x = a ∨ x ∈ l := by
  induction l with
  | nil => simp [insertBy]
  | cons b t ih =>
      simp only [insertBy]
      by_cases h : lt a b = true
      · simp only [if_pos h, List.mem_cons]
      · simp only [if_neg h, List.mem_cons, ih]
        tauto

theorem mem_insSortBy {lt : α → α → Bool} {x : α} {l : List α} :
    x ∈ insSortBy lt l ↔ x ∈ l := by
  induction l with
  | nil => simp [insSortBy]
  | cons a t ih => simp [insSortBy, mem_insertBy, ih]

theorem mem_listPairs {l : List α} {a b : α}
    (ha : a ∈ l) (hb : b ∈ l) (hne : a ≠ b) :
    (a, b) ∈ listPairs l ∨ (b, a) ∈ listPairs l := by
  induction l with
  | nil => cases ha
  | cons x t ih =>
      simp only [listPairs]
      rcases List.mem_cons.mp ha with rfl | ha'
      · have hb' : b ∈ t := by
          rcases List.mem_cons.mp hb with rfl | h
          · exact absurd rfl hne
          · exact h
        exact Or.inl (List.mem_append.mpr (Or.inl (List.mem_map.mpr ⟨b, hb', rfl⟩)))
      · rcases List.mem_cons.mp hb with rfl | hb'
        · exact Or.inr (List.mem_append.mpr (Or.inl (List.mem_map.mpr ⟨a, ha', rfl⟩)))
        · rcases ih ha' hb' with h | h
          · exact Or.inl (List.mem_append.mpr (Or.inr h))
          · exact Or.inr (List.mem_append.mpr (Or.inr h))

theorem mem_flatList {f : α → List β} {l : List α} {e : β} :
    e ∈ flatList f l ↔ ∃ a ∈ l, e ∈ f a := by
  induction l with
  | nil => simp [flatList]
  | cons a t ih => simp [flatList, List.mem_append, ih]

theorem memB_iff [DecidableEq α] {a : α} {l : List α} :
    memB a l = true ↔ a ∈ l := by
  induction l with
  | nil => simp [memB]
  | cons b t ih =>
      simp only [memB, List.any_cons] at *
      simp only [Bool.or_eq_true, decide_eq_true_eq, List.mem_cons]
      constructor
      · rintro (rfl | h)
        · exact Or.inl rfl
        · exact Or.inr (ih.mp h)
      · rintro (rfl | h)
        · exact Or.inl rfl
        · exact Or.inr (ih.mpr h)

theorem find?_mem [DecidableEq κ] {l : List (κ × ν)} {k : κ} {v : ν}
    (h : find? l k = some v) : (k, v) ∈ l := by
  induction l with
  | nil => simp [find?] at h
  | cons p t ih =>
      obtain ⟨k', v'⟩ := p
      simp only [find?] at h
      by_cases hk : k' = k
      · subst hk
        simp at h
        subst h
        exact List.mem_cons_self _ _
      · simp [hk] at h
        exact List.mem_cons_of_mem _ (ih h)

theorem dupsB_nil_iff [DecidableEq α] {lt : α → α → Bool} {l : List α} :
    dupsB lt l = [] ↔ l.Nodup := by
  have hsort : ∀ m : List α, insSortBy lt m = [] ↔ m = [] := by
    intro m
    cases m with
    | nil => simp [insSortBy]
    | cons a t =>
        simp only [insSortBy]
        constructor
        · intro h
          have : a ∈ insertBy lt a (insSortBy lt t) := mem_insertBy.mpr (Or.inl rfl)
          rw [h] at this
          cases this
        · intro h; cases h
  rw [dupsB, hsort, List.filter_eq_nil_iff]
  constructor
  · intro h
    rw [List.nodup_iff_count_le_one]
    intro a
    by_contra hc
    push_neg at hc
    have ha : a ∈ l := List.count_pos_iff.mp (by omega)
    have := h a (List.mem_dedup.mpr ha)
    simp at this
    omega
  · intro h a ha
    have := List.nodup_iff_count_le_one.mp h a
    simp
    omega

/-- Lexicographic comparison of char lists by Unicode code point. -/
def charsLt : List Char → List Char → Bool
  | [], [] => false
  | [], _ :: _ => true
  | _ :: _, [] => false
  | a :: as, b :: bs =>
      if a.toNat < b.toNat then true
      else if b.toNat < a.toNat then false
      else charsLt as bs

/-- Python's string `<` (used by `sorted` over strings): lexicographic by
Unicode code point. -/
def strLt (a b : String) : Bool := charsLt a.toList b.toList

/-- Int comparison used for python `sorted` over ints. -/
def intLt (a b : Int) : Bool := decide (a < b)

/-- Minimum of a nonempty list (python `min`; the `[]` case is unreachable at
the call sites, which are guarded by a non-emptiness check). -/
def listMin : List Int → Int
  | [] => 0
  | p :: t => t.foldl min p

/-- Maximum with a default (python `max(xs, default=dflt)`). -/
def listMaxD : List Int → Int → Int
  | [], dflt => dflt
  | v :: t, _ => t.foldl max v

/-- ClassInfo from src/input_data.py (name and grade). -/
structure ClassInfo where
  name : String
  grade : Int
  deriving DecidableEq

/-- The input-data container from src/input_data.py.  Python dicts are
association lists, python sets are lists; weight values are carried as
integers (the sources only ever check their keys and numeric type). -/
structure InputData where
  days : List String
  periods : List Int
  classes : List ClassInfo
  subjects : List String
  teachers : List String
  english_subject_name : String
  split_subjects : List String
  subgroup_ids : List Int
  plan_hours : List ((String × String) × Int)
  subgroup_plan_hours : List ((String × String × Int) × Int)
  assigned_teacher : List ((String × String) × String)
  subgroup_assigned_teacher : List ((String × String × Int) × String)
  days_off : List (String × List String)
  teacher_forbidden_slots : List (String × List (String × Int))
  forbidden_slots : List (String × String × Int)
  grade_max_lessons_per_day : List (Int × Int)
  subjects_not_last_lesson : List (Int × List String)
  elementary_english_periods : List Int
  grade_subject_max_consecutive_days : List (Int × List (String × Int))
  class_slot_weight : List ((String × String × Int) × Int)
  teacher_slot_weight : List ((String × String × Int) × Int)
  class_subject_day_weight : List ((String × String × String) × Int)
  compatible_pairs : List (String × String)
  paired_subjects : List String
  must_sync_split_subjects : List String
  deriving DecidableEq

/-- The class-name list (`class_names = [c.name for c in data.classes]`). -/
def classNames (d : InputData) : List String := d.classes.map (fun c => c.name)

/-- Violation messages of the validator's base-structure section (rasp_or_tools.py
lines 130-188).  Each constructor stands for one `add_err` site; its arguments
are exactly the data interpolated into that site's message. -/
inductive BaseErr where
  | emptyDays
  | dupDays (ds : List String)
  | emptyPeriods
  | periodsNotSorted
  | dupPeriods (ps : List Int)
  | periodMinLt1
  | emptyClasses
  | classNameEmpty
  | dupClassNames (ns : List String)
  | classGradeInvalid
  | emptySubjects
  | dupSubjects (ss : List String)
  | emptyTeachers
  | dupTeachers (ts : List String)
  | unknownEnglish (s : String)
  | splitUnknown (ss : List String)
  | emptySubgroupIds
  | dupSubgroupIds (gs : List Int)
  deriving DecidableEq

/-- Violation messages of the plans-and-assignments section (lines 190-245). -/
inductive PlanErr where
  | planUnknownClass (c : String)
  | planUnknownSubject (s : String)
  | planSplitSubject (s : String)
  | planBadHours (c s : String)
  | sphUnknownClass (c : String)
  | sphUnknownSubject (s : String)
  | sphNotSplit (s : String)
  | sphUnknownGroup (g : Int) (c s : String)
  | sphBadHours (c s : String) (g : Int)
  | atUnknownPair (c s : String)
  | atSplitSubject (s : String)
  | atUnknownTeacher (t c s : String)
  | atNoHours (c s : String)
  | satUnknownKey (c s : String) (g : Int)
  | satNotSplit (s : String)
  | satUnknownTeacher (t c s : String) (g : Int)
  | satNoHours (c s : String) (g : Int)
  | planMissingTeacher (c s : String) (h : Int)
  | sphMissingTeacher (c s : String) (g h : Int)
  deriving DecidableEq

/-- Violation messages of the availability/forbidden-slot section
(lines 248-278). -/
inductive SlotErr where
  | doUnknownTeacher (t : String)
  | doUnknownDay (t day : String)
  | tfsUnknownTeacher (t : String)
  | tfsUnknownDay (t day : String)
  | tfsUnknownPeriod (t : String) (p : Int)
  | tfsDupSlot (t day : String) (p : Int)
  | forbUnknownClass (c : String)
  | forbUnknownDay (c day : String)
  | forbUnknownPeriod (c : String) (p : Int)
  deriving DecidableEq

/-- Violation messages of the policy-table section (lines 280-349). -/
inductive PolicyErr where
  | gmlpdBadGrade (g : Int)
  | gmlpdBadLimit (g : Int)
  | snllBadGrade (g : Int)
  | snllUnknownSubject (g : Int) (s : String)
  | eepBadPeriods (ps : List Int)
  | gsmcdBadGrade (g : Int)
  | gsmcdUnknownSubject (g : Int) (s : String)
  | gsmcdBadLimit (g : Int) (s : String)
  | cswBadKey (c day : String) (p : Int)
  | tswBadKey (t day : String) (p : Int)
  | csdwBadKey (c s day : String)
  | pairedUnknown (s : String)
  | cpNotSplit (s1 s2 : String)
  | cpUnsorted (s1 s2 : String)
  deriving DecidableEq

/-- Violation messages of the must-sync section (lines 351-380). -/
inductive SyncErr where
  | msNotSplit (ss : List String)
  | msUnequalHours (c s : String) (hs : List Int)
  | msDupTeachers (c s : String) (ts : List String)
  | msSingleTeacher (c s t : String)
  deriving DecidableEq

/-- Violation messages of the capacity checks 5a-5c (lines 382-473). -/
inductive CapErr where
  | teacherOverCap (t : String) (load cap : Int)
  | classOverCap (c : String) (req nonsplit splitlb cap : Int)
  | engOverCap (c : String) (g req cap : Int)
  deriving DecidableEq

/-- A violation message of `_validate_input_data` (rasp_or_tools.py 92-477),
grouped by source section. -/
inductive VErr where
  | base (e : BaseErr)
  | plan (e : PlanErr)
  | slot (e : SlotErr)
  | policy (e : PolicyErr)
  | sync (e : SyncErr)
  | cap (e : CapErr)
  deriving DecidableEq

namespace VErr

abbrev emptyDays : VErr := base BaseErr.emptyDays

abbrev dupDays (ds : List String) : VErr := base (BaseErr.dupDays ds)

abbrev emptyPeriods : VErr := base BaseErr.emptyPeriods

abbrev periodsNotSorted : VErr := base BaseErr.periodsNotSorted

abbrev dupPeriods (ps : List Int) : VErr := base (BaseErr.dupPeriods ps)

abbrev periodMinLt1 : VErr := base BaseErr.periodMinLt1

abbrev emptyClasses : VErr := base BaseErr.emptyClasses

abbrev classNameEmpty : VErr := base BaseErr.classNameEmpty

abbrev dupClassNames (ns : List String) : VErr := base (BaseErr.dupClassNames ns)

abbrev classGradeInvalid : VErr := base BaseErr.classGradeInvalid

abbrev emptySubjects : VErr := base BaseErr.emptySubjects

abbrev dupSubjects (ss : List String) : VErr := base (BaseErr.dupSubjects ss)

abbrev emptyTeachers : VErr := base BaseErr.emptyTeachers

abbrev dupTeachers (ts : List String) : VErr := base (BaseErr.dupTeachers ts)

abbrev unknownEnglish (s : String) : VErr := base (BaseErr.unknownEnglish s)

abbrev splitUnknown (ss : List String) : VErr := base (BaseErr.splitUnknown ss)

abbrev emptySubgroupIds : VErr := base BaseErr.emptySubgroupIds

abbrev dupSubgroupIds (gs : List Int) : VErr := base (BaseErr.dupSubgroupIds gs)

abbrev planUnknownClass (c : String) : VErr := plan (PlanErr.planUnknownClass c)

abbrev planUnknownSubject (s : String) : VErr := plan (PlanErr.planUnknownSubject s)

abbrev planSplitSubject (s : String) : VErr := plan (PlanErr.planSplitSubject s)

abbrev planBadHours (c s : String) : VErr := plan (PlanErr.planBadHours c s)

abbrev sphUnknownClass (c : String) : VErr := plan (PlanErr.sphUnknownClass c)

abbrev sphUnknownSubject (s : String) : VErr := plan (PlanErr.sphUnknownSubject s)

abbrev sphNotSplit (s : String) : VErr := plan (PlanErr.sphNotSplit s)

abbrev sphUnknownGroup (g : Int) (c s : String) : VErr := plan (PlanErr.sphUnknownGroup g c s)

abbrev sphBadHours (c s : String) (g : Int) : VErr := plan (PlanErr.sphBadHours c s g)

abbrev atUnknownPair (c s : String) : VErr := plan (PlanErr.atUnknownPair c s)

abbrev atSplitSubject (s : String) : VErr := plan (PlanErr.atSplitSubject s)

abbrev atUnknownTeacher (t c s : String) : VErr := plan (PlanErr.atUnknownTeacher t c s)

abbrev atNoHours (c s : String) : VErr := plan (PlanErr.atNoHours c s)

abbrev satUnknownKey (c s : String) (g : Int) : VErr := plan (PlanErr.satUnknownKey c s g)

abbrev satNotSplit (s : String) : VErr := plan (PlanErr.satNotSplit s)

abbrev satUnknownTeacher (t c s : String) (g : Int) : VErr :=
  plan (PlanErr.satUnknownTeacher t c s g)

abbrev satNoHours (c s : String) (g : Int) : VErr := plan (PlanErr.satNoHours c s g)

abbrev planMissingTeacher (c s : String) (h : Int) : VErr :=
  plan (PlanErr.planMissingTeacher c s h)

abbrev sphMissingTeacher (c s : String) (g h : Int) : VErr :=
  plan (PlanErr.sphMissingTeacher c s g h)

abbrev doUnknownTeacher (t : String) : VErr := slot (SlotErr.doUnknownTeacher t)

abbrev doUnknownDay (t day : String) : VErr := slot (SlotErr.doUnknownDay t day)

abbrev tfsUnknownTeacher (t : String) : VErr := slot (SlotErr.tfsUnknownTeacher t)

abbrev tfsUnknownDay (t day : String) : VErr := slot (SlotErr.tfsUnknownDay t day)

abbrev tfsUnknownPeriod (t : String) (p : Int) : VErr := slot (SlotErr.tfsUnknownPeriod t p)

abbrev tfsDupSlot (t day : String) (p : Int) : VErr := slot (SlotErr.tfsDupSlot t day p)

abbrev forbUnknownClass (c : String) : VErr := slot (SlotErr.forbUnknownClass c)

abbrev forbUnknownDay (c day : String) : VErr := slot (SlotErr.forbUnknownDay c day)

abbrev forbUnknownPeriod (c : String) (p : Int) : VErr := slot (SlotErr.forbUnknownPeriod c p)

abbrev gmlpdBadGrade (g : Int) : VErr := policy (PolicyErr.gmlpdBadGrade g)

abbrev gmlpdBadLimit (g : Int) : VErr := policy (PolicyErr.gmlpdBadLimit g)

abbrev snllBadGrade (g : Int) : VErr := policy (PolicyErr.snllBadGrade g)

abbrev snllUnknownSubject (g : Int) (s : String) : VErr :=
  policy (PolicyErr.snllUnknownSubject g s)

abbrev eepBadPeriods (ps : List Int) : VErr := policy (PolicyErr.eepBadPeriods ps)

abbrev gsmcdBadGrade (g : Int) : VErr := policy (PolicyErr.gsmcdBadGrade g)

abbrev gsmcdUnknownSubject (g : Int) (s : String) : VErr :=
  policy (PolicyErr.gsmcdUnknownSubject g s)

abbrev gsmcdBadLimit (g : Int) (s : String) : VErr := policy (PolicyErr.gsmcdBadLimit g s)

abbrev cswBadKey (c day : String) (p : Int) : VErr := policy (PolicyErr.cswBadKey c day p)

abbrev tswBadKey (t day : String) (p : Int) : VErr := policy (PolicyErr.tswBadKey t day p)

abbrev csdwBadKey (c s day : String) : VErr := policy (PolicyErr.csdwBadKey c s day)

abbrev pairedUnknown (s : String) : VErr := policy (PolicyErr.pairedUnknown s)

abbrev cpNotSplit (s1 s2 : String) : VErr := policy (PolicyErr.cpNotSplit s1 s2)

abbrev cpUnsorted (s1 s2 : String) : VErr := policy (PolicyErr.cpUnsorted s1 s2)

abbrev msNotSplit (ss : List String) : VErr := sync (SyncErr.msNotSplit ss)

abbrev msUnequalHours (c s : String) (hs : List Int) : VErr :=
  sync (SyncErr.msUnequalHours c s hs)

abbrev msDupTeachers (c s : String) (ts : List String) : VErr :=
  sync (SyncErr.msDupTeachers c s ts)

abbrev msSingleTeacher (c s t : String) : VErr := sync (SyncErr.msSingleTeacher c s t)

abbrev teacherOverCap (t : String) (load capv : Int) : VErr :=
  cap (CapErr.teacherOverCap t load capv)

abbrev classOverCap (c : String) (req nonsplit splitlb capv : Int) : VErr :=
  cap (CapErr.classOverCap c req nonsplit splitlb capv)

abbrev engOverCap (c : String) (g req capv : Int) : VErr :=
  cap (CapErr.engOverCap c g req capv)

end VErr

/-- Validator, days section (lines 131-134). -/
def secDays (d : InputData) : List VErr :=
  if d.days = [] then [VErr.emptyDays]
  else if dupsB strLt d.days ≠ [] then [VErr.dupDays (dupsB strLt d.days)]
  else []

/-- Validator, periods section (lines 136-146); the isinstance check cannot
fail in the typed embedding. -/
def secPeriods (d : InputData) : List VErr :=
  if d.periods = [] then [VErr.emptyPeriods]
  else
    (if insSortBy intLt d.periods ≠ d.periods then [VErr.periodsNotSorted] else [])
    ++ (if dupsB intLt d.periods ≠ [] then [VErr.dupPeriods (dupsB intLt d.periods)] else [])
    ++ (if listMin d.periods < 1 then [VErr.periodMinLt1] else [])

/-- Validator, classes section (lines 148-159). -/
def secClasses (d : InputData) : List VErr :=
  if d.classes = [] then [VErr.emptyClasses]
  else
    (if d.classes.any (fun c => c.name = "") then [VErr.classNameEmpty] else [])
    ++ (if dupsB strLt (classNames d) ≠ [] then
          [VErr.dupClassNames (dupsB strLt (classNames d))] else [])
    ++ (if d.classes.any (fun c => c.grade < 1) then [VErr.classGradeInvalid] else [])

/-- Validator, subjects section (lines 161-164). -/
def secSubjects (d : InputData) : List VErr :=
  if d.subjects = [] then [VErr.emptySubjects]
  else if dupsB strLt d.subjects ≠ [] then [VErr.dupSubjects (dupsB strLt d.subjects)]
  else []

/-- Validator, teachers section (lines 167-170). -/
def secTeachers (d : InputData) : List VErr :=
  if d.teachers = [] then [VErr.emptyTeachers]
  else if dupsB strLt d.teachers ≠ [] then [VErr.dupTeachers (dupsB strLt d.teachers)]
  else []

/-- Validator, english-subject-name section (lines 174-176). -/
def secEng (d : InputData) : List VErr :=
  if d.english_subject_name ≠ "" ∧ memB d.english_subject_name d.subjects ≠ true then
    [VErr.unknownEnglish d.english_subject_name]
  else []

/-- Validator, split-subjects subset check (lines 179-181). -/
def secSplit (d : InputData) : List VErr :=
  if d.split_subjects.any (fun s => !(memB s d.subjects)) then
    [VErr.splitUnknown
      (insSortBy strLt (d.split_subjects.dedup.filter (fun s => !(memB s d.subjects))))]
  else []

/-- Validator, subgroup-ids section (lines 182-188). -/
def secSubgroups (d : InputData) : List VErr :=
  if d.subgroup_ids = [] then [VErr.emptySubgroupIds]
  else if dupsB intLt d.subgroup_ids ≠ [] then
    [VErr.dupSubgroupIds (dupsB intLt d.subgroup_ids)]
  else []

/-- Validator, plan_hours section (lines 192-200). -/
def secPlan (d : InputData) : List VErr :=
  flatList (fun e =>
    let c := e.1.1
    let s := e.1.2
    let h := e.2
    (if !(memB c (classNames d)) then [VErr.planUnknownClass c] else [])
    ++ (if !(memB s d.subjects) then [VErr.planUnknownSubject s] else [])
    ++ (if memB s d.split_subjects then [VErr.planSplitSubject s] else [])
    ++ (if h < 0 then [VErr.planBadHours c s] else []))
    d.plan_hours

/-- Validator, subgroup_plan_hours section (lines 202-212). -/
def secSph (d : InputData) : List VErr :=
  flatList (fun e =>
    let c := e.1.1
    let s := e.1.2.1
    let g := e.1.2.2
    let h := e.2
    (if !(memB c (classNames d)) then [VErr.sphUnknownClass c] else [])
    ++ (if !(memB s d.subjects) then [VErr.sphUnknownSubject s] else [])
    ++ (if !(memB s d.split_subjects) then [VErr.sphNotSplit s] else [])
    ++ (if !(memB g d.subgroup_ids) then [VErr.sphUnknownGroup g c s] else [])
    ++ (if h < 0 then [VErr.sphBadHours c s g] else []))
    d.subgroup_plan_hours

/-- Validator, assigned_teacher section (lines 215-225).  The final check is
translated verbatim; note its condition (`h > 0` with `h` defaulted to `0`
for a missing key, conjoined with the key being missing) can never fire. -/
def secAT (d : InputData) : List VErr :=
  flatList (fun e =>
    let c := e.1.1
    let s := e.1.2
    let t := e.2
    (if !(memB c (classNames d)) || !(memB s d.subjects) then [VErr.atUnknownPair c s] else [])
    ++ (if memB s d.split_subjects then [VErr.atSplitSubject s] else [])
    ++ (if !(memB t d.teachers) then [VErr.atUnknownTeacher t c s] else [])
    ++ (if 0 < getD d.plan_hours (c, s) 0 ∧ containsKey d.plan_hours (c, s) ≠ true then
          [VErr.atNoHours c s] else []))
    d.assigned_teacher

/-- Validator, subgroup_assigned_teacher section (lines 228-237). -/
def secSAT (d : InputData) : List VErr :=
  flatList (fun e =>
    let c := e.1.1
    let s := e.1.2.1
    let g := e.1.2.2
    let t := e.2
    (if !(memB c (classNames d)) || !(memB s d.subjects) || !(memB g d.subgroup_ids) then
       [VErr.satUnknownKey c s g] else [])
    ++ (if !(memB s d.split_subjects) then [VErr.satNotSplit s] else [])
    ++ (if !(memB t d.teachers) then [VErr.satUnknownTeacher t c s g] else [])
    ++ (if 0 < getD d.subgroup_plan_hours (c, s, g) 0
           ∧ containsKey d.subgroup_plan_hours (c, s, g) ≠ true then
          [VErr.satNoHours c s g] else []))
    d.subgroup_assigned_teacher

/-- Validator, positive-hours-need-a-teacher section (lines 240-245). -/
def secPosHours (d : InputData) : List VErr :=
  flatList (fun e =>
    if 0 < e.2 ∧ containsKey d.assigned_teacher (e.1.1, e.1.2) ≠ true then
      [VErr.planMissingTeacher e.1.1 e.1.2 e.2] else [])
    d.plan_hours
  ++ flatList (fun e =>
    if 0 < e.2 ∧ containsKey d.subgroup_assigned_teacher (e.1.1, e.1.2.1, e.1.2.2) ≠ true then
      [VErr.sphMissingTeacher e.1.1 e.1.2.1 e.1.2.2 e.2] else [])
    d.subgroup_plan_hours

/-- Validator, days_off section (lines 252-257). -/
def secDaysOff (d : InputData) : List VErr :=
  flatList (fun e =>
    (if !(memB e.1 d.teachers) then [VErr.doUnknownTeacher e.1] else [])
    ++ flatList (fun day =>
         if !(memB day d.days) then [VErr.doUnknownDay e.1 day] else []) e.2)
    d.days_off

/-- Slot loop of the teacher_forbidden_slots section, with the `seen_tp`
accumulator (lines 262-270). -/
def tfsSlotErrs (d : InputData) (t : String) :
    List (String × Int) → List (String × Int) → List VErr
  | _, [] => []
  | seen, (day, p) :: rest =>
      (if !(memB day d.days) then [VErr.tfsUnknownDay t day] else [])
      ++ (if !(memB p d.periods) then [VErr.tfsUnknownPeriod t p] else [])
      ++ (if memB (day, p) seen then [VErr.tfsDupSlot t day p] else [])
      ++ tfsSlotErrs d t ((day, p) :: seen) rest

/-- Validator, teacher_forbidden_slots section (lines 259-270). -/
def secTfs (d : InputData) : List VErr :=
  flatList (fun e =>
    (if !(memB e.1 d.teachers) then [VErr.tfsUnknownTeacher e.1] else [])
    ++ tfsSlotErrs d e.1 [] e.2)
    d.teacher_forbidden_slots

/-- Validator, class forbidden_slots section (lines 272-278). -/
def secForb (d : InputData) : List VErr :=
  flatList (fun e =>
    let c := e.1
    let day := e.2.1
    let p := e.2.2
    (if !(memB c (classNames d)) then [VErr.forbUnknownClass c] else [])
    ++ (if !(memB day d.days) then [VErr.forbUnknownDay c day] else [])
    ++ (if !(memB p d.periods) then [VErr.forbUnknownPeriod c p] else []))
    d.forbidden_slots

/-- Validator, grade_max_lessons_per_day section (lines 281-288). -/
def secGmlpd (d : InputData) : List VErr :=
  flatList (fun e =>
    (if e.1 < 1 then [VErr.gmlpdBadGrade e.1] else [])
    ++ (if e.2 < 0 then [VErr.gmlpdBadLimit e.1] else []))
    d.grade_max_lessons_per_day

/-- Validator, subjects_not_last_lesson section (lines 291-296). -/
def secSnll (d : InputData) : List VErr :=
  flatList (fun e =>
    (if e.1 < 1 then [VErr.snllBadGrade e.1] else [])
    ++ flatList (fun s =>
         if !(memB s d.subjects) then [VErr.snllUnknownSubject e.1 s] else []) e.2)
    d.subjects_not_last_lesson

/-- Validator, elementary_english_periods section (lines 299-301). -/
def secEep (d : InputData) : List VErr :=
  if d.elementary_english_periods ≠ []
     ∧ d.elementary_english_periods.any (fun p => !(memB p d.periods)) = true then
    [VErr.eepBadPeriods
      (insSortBy intLt (d.elementary_english_periods.dedup.filter (fun p => !(memB p d.periods))))]
  else []

/-- Validator, grade_subject_max_consecutive_days section (lines 304-314). -/
def secGsmcd (d : InputData) : List VErr :=
  flatList (fun e =>
    (if e.1 < 1 then [VErr.gsmcdBadGrade e.1] else [])
    ++ flatList (fun sl =>
         (if !(memB sl.1 d.subjects) then [VErr.gsmcdUnknownSubject e.1 sl.1] else [])
         ++ (if sl.2 < 1 then [VErr.gsmcdBadLimit e.1 sl.1] else [])) e.2)
    d.grade_subject_max_consecutive_days

/-- Validator, class_slot_weight section (lines 317-321). -/
def secCsw (d : InputData) : List VErr :=
  flatList (fun e =>
    if !(memB e.1.1 (classNames d)) || !(memB e.1.2.1 d.days) || !(memB e.1.2.2 d.periods) then
      [VErr.cswBadKey e.1.1 e.1.2.1 e.1.2.2] else [])
    d.class_slot_weight

/-- Validator, teacher_slot_weight section (lines 323-327). -/
def secTsw (d : InputData) : List VErr :=
  flatList (fun e =>
    if !(memB e.1.1 d.teachers) || !(memB e.1.2.1 d.days) || !(memB e.1.2.2 d.periods) then
      [VErr.tswBadKey e.1.1 e.1.2.1 e.1.2.2] else [])
    d.teacher_slot_weight

/-- Validator, class_subject_day_weight section (lines 329-333). -/
def secCsdw (d : InputData) : List VErr :=
  flatList (fun e =>
    if !(memB e.1.1 (classNames d)) || !(memB e.1.2.1 d.subjects) || !(memB e.1.2.2 d.days) then
      [VErr.csdwBadKey e.1.1 e.1.2.1 e.1.2.2] else [])
    d.class_subject_day_weight

/-- Validator, paired_subjects section (lines 336-338). -/
def secPaired (d : InputData) : List VErr :=
  flatList (fun s =>
    if !(memB s d.subjects) then [VErr.pairedUnknown s] else [])
    d.paired_subjects

/-- Validator, compatible_pairs section (lines 341-349); the tuple-shape check
cannot fail in the typed embedding, and `tuple(sorted(pair)) != pair` fires
exactly when the second component is strictly below the first. -/
def secCp (d : InputData) : List VErr :=
  flatList (fun e =>
    (if !(memB e.1 d.split_subjects) || !(memB e.2 d.split_subjects) then
       [VErr.cpNotSplit e.1 e.2] else [])
    ++ (if strLt e.2 e.1 then [VErr.cpUnsorted e.1 e.2] else []))
    d.compatible_pairs

/-- Validator, must_sync subset check (lines 352-355). -/
def secMsSubset (d : InputData) : List VErr :=
  if d.must_sync_split_subjects.any (fun s => !(memB s d.split_subjects)) then
    [VErr.msNotSplit
      (insSortBy strLt
        (d.must_sync_split_subjects.dedup.filter (fun s => !(memB s d.split_subjects))))]
  else []

/-- Validator, must_sync hour/teacher consistency (lines 358-380).  The outer
loops range over the must_sync set and the class-name set (both deduplicated). -/
def secMs4a (d : InputData) : List VErr :=
  flatList (fun s =>
    flatList (fun c =>
      let hours := d.subgroup_ids.map (fun g => getD d.subgroup_plan_hours (c, s, g) 0)
      if hours.any (fun h => 0 < h) then
        (if hours.dedup.length ≠ 1 then [VErr.msUnequalHours c s hours] else [])
        ++ (let ts := (d.subgroup_ids.zip hours).filterMap
              (fun gh => if 0 < gh.2 then find? d.subgroup_assigned_teacher (c, s, gh.1) else none)
            if ts.length ≠ ts.dedup.length then [VErr.msDupTeachers c s ts] else [])
        ++ (let uniq := ((d.subgroup_ids.zip hours).filterMap
              (fun gh => if 0 < gh.2 then find? d.subgroup_assigned_teacher (c, s, gh.1) else none)).dedup
            match uniq with
            | [t] => if 0 < hours.sum then [VErr.msSingleTeacher c s t] else []
            | _ => [])
      else [])
      (classNames d).dedup)
    d.must_sync_split_subjects.dedup

/-- Weekly teaching load of a teacher: assigned plan hours with `h > 0`
(lines 386-396). -/
def teacherLoad (d : InputData) (t : String) : Int :=
  (d.plan_hours.map (fun e =>
    if 0 < e.2 ∧ find? d.assigned_teacher e.1 = some t ∧ memB t d.teachers = true
    then e.2 else 0)).sum
  + (d.subgroup_plan_hours.map (fun e =>
    if 0 < e.2 ∧ find? d.subgroup_assigned_teacher e.1 = some t ∧ memB t d.teachers = true
    then e.2 else 0)).sum

/-- Weekly slot capacity of a teacher: days off removed, forbidden slots
subtracted per day (lines 398-412). -/
def teacherWeeklyCap (d : InputData) (t : String) : Int :=
  (d.days.map (fun day =>
    if memB day (getD d.days_off t []) then 0
    else max 0 ((d.periods.length : Int)
      - ((d.periods.filter
           (fun p => memB (day, p) (getD d.teacher_forbidden_slots t []))).length : Int)))).sum

/-- Validator, teacher weekly-capacity check 5a (lines 405-415). -/
def teacherCapacityErrors (d : InputData) : List VErr :=
  flatList (fun t =>
    if teacherWeeklyCap d t < teacherLoad d t then
      [VErr.teacherOverCap t (teacherLoad d t) (teacherWeeklyCap d t)]
    else [])
    d.teachers.dedup

/-- Non-split weekly hours of a class (line 428). -/
def nonSplitHours (d : InputData) (c : String) : Int :=
  (d.plan_hours.map (fun e => if e.1.1 = c then e.2 else 0)).sum

/-- Lower bound on split slot-lessons: the heaviest subgroup (lines 429-433). -/
def splitLB (d : InputData) (c : String) : Int :=
  let groups := (d.subgroup_plan_hours.filterMap
    (fun e => if e.1.1 = c then some e.1.2.2 else none)).dedup
  listMaxD (groups.map (fun g =>
    (d.subgroup_plan_hours.map
      (fun e => if e.1.1 = c ∧ e.1.2.2 = g then e.2 else 0)).sum)) 0

/-- Grade of a class name; the dict comprehension at line 159 lets the LAST
occurrence of a duplicated name win, hence the reversed search. -/
def classGradeLast (d : InputData) (c : String) : Option Int :=
  find? ((d.classes.map (fun ci => (ci.name, ci.grade))).reverse) c

/-- Count of forbidden slots of a class on a day; `forbidden_slots` is a
python set, so occurrences are deduplicated (lines 423-425). -/
def forbCountCD (d : InputData) (c day : String) : Int :=
  ((d.forbidden_slots.dedup.filter (fun e => e.1 = c ∧ e.2.1 = day)).length : Int)

/-- Weekly slot capacity of a class (lines 436-442). -/
def classWeeklyCap (d : InputData) (c : String) : Int :=
  let perDayLimit :=
    match classGradeLast d c with
    | some g => getD d.grade_max_lessons_per_day g (d.periods.length : Int)
    | none => (d.periods.length : Int)
  (d.days.map (fun day =>
    min perDayLimit (max 0 ((d.periods.length : Int) - forbCountCD d c day)))).sum

/-- Validator, class weekly-capacity check 5b (lines 427-447). -/
def classCapacityErrors (d : InputData) : List VErr :=
  flatList (fun c =>
    let req := nonSplitHours d c + splitLB d c
    if classWeeklyCap d c < req then
      [VErr.classOverCap c req (nonSplitHours d c) (splitLB d c) (classWeeklyCap d c)]
    else [])
    (classNames d).dedup

/-- Required weekly english slot-lessons of a class (lines 455-461). -/
def engRequired (d : InputData) (c : String) : Int :=
  if memB d.english_subject_name d.split_subjects then
    listMaxD (d.subgroup_ids.map
      (fun g => getD d.subgroup_plan_hours (c, d.english_subject_name, g) 0)) 0
  else getD d.plan_hours (c, d.english_subject_name) 0

/-- Available english slots of a class on allowed periods (lines 464-468). -/
def engCap (d : InputData) (c : String) : Int :=
  (d.days.map (fun day =>
    ((d.elementary_english_periods.dedup.filter
       (fun p => memB p d.periods = true ∧ memB (c, day, p) d.forbidden_slots ≠ true)).length
     : Int))).sum

/-- Validator, elementary-english feasibility check 5c (lines 450-473). -/
def engCapacityErrors (d : InputData) : List VErr :=
  if d.english_subject_name ≠ "" ∧ memB d.english_subject_name d.subjects = true
     ∧ d.elementary_english_periods ≠ [] then
    flatList (fun c =>
      match classGradeLast d c with
      | some g =>
          if g = 2 ∨ g = 3 ∨ g = 4 then
            if engCap d c < engRequired d c then
              [VErr.engOverCap c g (engRequired d c) (engCap d c)]
            else []
          else []
      | none => []) (classNames d).dedup
  else []

/-- All violation messages collected by `_validate_input_data`, in source
order; the function raises a single ValueError carrying all of them iff this
list is non-empty (lines 475-477).  The checks are cumulative: each section's
messages are appended regardless of the outcome of the other sections. -/
def validateErrors (d : InputData) : List VErr :=
  secDays d ++ secPeriods d ++ secClasses d ++ secSubjects d ++ secTeachers d
  ++ secEng d ++ secSplit d ++ secSubgroups d
  ++ secPlan d ++ secSph d ++ secAT d ++ secSAT d ++ secPosHours d
  ++ secDaysOff d ++ secTfs d ++ secForb d ++ secGmlpd d ++ secSnll d ++ secEep d
  ++ secGsmcd d ++ secCsw d ++ secTsw d ++ secCsdw d ++ secPaired d ++ secCp d
  ++ secMsSubset d ++ secMs4a d
  ++ teacherCapacityErrors d ++ classCapacityErrors d ++ engCapacityErrors d

/-- Python exceptions relevant to a run of `build_and_solve_with_or_tools`. -/
inductive PyErr where
  | valueError (errs : List VErr)
  | unboundLocal
  | keyError
  | attributeError
  deriving DecidableEq

/-- Outcome of `_validate_input_data` (lines 92-477).  On an empty `classes`
list the unconditional loop `for c in class_set:` of check 5b (line 427) reads
a name that is bound only in the `else` branch of line 148, so the call raises
UnboundLocalError before reaching the final aggregation at line 477; otherwise
a single ValueError carrying every collected message is raised iff the message
list is non-empty. -/
def validatorOutcome (d : InputData) : Except PyErr Unit :=
  if d.classes.isEmpty then Except.error PyErr.unboundLocal
  else if validateErrors d ≠ [] then Except.error (PyErr.valueError (validateErrors d))
  else Except.ok ()

/-- True when the teacher-map construction of lines 556-564 raises KeyError:
`x[c, s, d, p]` (resp. `z[c, s, g, d, p]`) is indexed for every assignment key
reached by the product loops, and such a key is only materialized when the
matching plan-hours entry exists (lines 517-524). -/
def teacherMapMismatch (d : InputData) : Bool :=
  d.assigned_teacher.any (fun e =>
    memB e.1.1 (classNames d) && memB e.1.2 d.subjects && !(memB e.1.2 d.split_subjects)
    && !(containsKey d.plan_hours e.1))
  || d.subgroup_assigned_teacher.any (fun e =>
    memB e.1.1 (classNames d) && memB e.1.2.1 d.split_subjects && memB e.1.2.2 d.subgroup_ids
    && !(containsKey d.subgroup_plan_hours e.1))

/-- Control-flow outcome of a call to `build_and_solve_with_or_tools`:
validation runs at line 511; then variables and the per-teacher lesson map
are built (517-575; possible KeyError at 561/564); then hard constraints
(1)-(6a); then line 715 reads `optimizationGoals.subjects_not_last_lesson_optimization`,
an attribute the `OptimizationGoals` dataclass (input_data.py 222-224) does
not define, so every surviving run raises AttributeError during model
construction, before `solver.Solve` (line 1057) can be reached. -/
def pipeline (d : InputData) : Except PyErr Unit :=
  match validatorOutcome d with
  | Except.error e => Except.error e
  | Except.ok _ =>
      if teacherMapMismatch d then Except.error PyErr.keyError
      else Except.error PyErr.attributeError

/-- Python `max(P)` (crashes on an empty list; the call at line 698 is only
reached for validated data, whose period list is non-empty). -/
def maxPeriod (d : InputData) : Int := listMaxD d.periods 0

/-- The grades of the classes, as the set comprehension of line 695:
`{class_grades.get(c) for c in C if class_grades.get(c) is not None}`. -/
def uniqueGrades (d : InputData) : List Int :=
  ((classNames d).filterMap (fun c => classGradeLast d c)).dedup

/-- The `grade_max_lessons_per_day` table after the in-place default filling
of lines 694-698: every class grade missing from the table gains the entry
`g ↦ max(P)`.  The `getattr` at line 692 aliases the input's own dict, so
this is a mutation of the InputData object. -/
def fillGradeMax (d : InputData) : List (Int × Int) :=
  d.grade_max_lessons_per_day
  ++ ((uniqueGrades d).filter
       (fun g => !(containsKey d.grade_max_lessons_per_day g))).map
      (fun g => (g, maxPeriod d))

/-- The InputData object as observable after a call to
`build_and_solve_with_or_tools` returns or raises: the only field the builder
writes is `grade_max_lessons_per_day` (lines 694-698), and that write happens
after validation and teacher-map construction but before the AttributeError
of line 715, so it persists exactly on runs that get past those two points. -/
def dataAfterBuild (d : InputData) : InputData :=
  match validatorOutcome d with
  | Except.error _ => d
  | Except.ok _ =>
      if teacherMapMismatch d then d
      else { d with grade_max_lessons_per_day := fillGradeMax d }

/-- An assignment of values to the decision variables of the CP-SAT model
(section 3.1 of rasp_or_tools.py): `x c s day p`, `z c s g day p`,
`y c day p` (line 527), `ist c s day p` (`is_subj_taught`, line 531) and
`dlast c day p` (`day_is_last_lesson`, line 729).  Variables that the model
pins to a unique value by exact boolean equalities (`has_split`,
`teacher_busy`, `no_lessons_after`, `day_flag`) are substituted by their
defining expressions in the checker. -/
structure Assignment where
  x : String → String → String → Int → Bool
  z : String → String → Int → String → Int → Bool
  y : String → String → Int → Bool
  ist : String → String → String → Int → Bool
  dlast : String → String → Int → Bool

/-- A non-split lesson variable `x[c, s, d, p]` is materialized iff the plan
has the key and the subject is not split (line 517-519). -/
def xKey (d : InputData) (c s : String) : Bool :=
  containsKey d.plan_hours (c, s) && !(memB s d.split_subjects)

/-- `x.get((c, s, d, p), false_var)`: the variable's value when materialized,
else false. -/
def xM (d : InputData) (a : Assignment) (c s day : String) (p : Int) : Bool :=
  if xKey d c s then a.x c s day p else false

/-- A subgroup lesson variable `z[c, s, g, d, p]` is materialized iff the
subject is split and the subgroup plan has the key (lines 522-524). -/
def zKey (d : InputData) (c s : String) (g : Int) : Bool :=
  memB s d.split_subjects && containsKey d.subgroup_plan_hours (c, s, g)

/-- `z.get((c, s, g, d, p), false_var)`. -/
def zM (d : InputData) (a : Assignment) (c s : String) (g : Int) (day : String) (p : Int) :
    Bool :=
  if zKey d c s g then a.z c s g day p else false

/-- OR of all lessons of a class in a slot (`_class_lessons_in_slot`,
lines 550-553). -/
def classLessonsAny (d : InputData) (a : Assignment) (c day : String) (p : Int) : Bool :=
  (d.subjects.any (fun s => !(memB s d.split_subjects) && xM d a c s day p))
  || (d.split_subjects.any (fun s => d.subgroup_ids.any (fun g => zM d a c s g day p)))

/-- OR of all split lessons of a class in a slot (`all_split_vars_in_slot`,
line 649; `has_split` is pinned to this value by lines 653/655). -/
def hasSplitD (d : InputData) (a : Assignment) (c day : String) (p : Int) : Bool :=
  d.split_subjects.any (fun s => d.subgroup_ids.any (fun g => zM d a c s g day p))

/-- Constraint family (1), lines 579-586: `y == OR of the slot's lessons`
(AddMaxEquality, or `y == 0` when no lesson variable exists). -/
def checkYLink (d : InputData) (a : Assignment) : Bool :=
  (classNames d).all (fun c => d.days.all (fun day => d.periods.all (fun p =>
    a.y c day p == classLessonsAny d a c day p)))

/-- Lessons of one subject of one class on one day, counted (used by families
(2) and (2a)). -/
def dayCountX (d : InputData) (a : Assignment) (c s day : String) : Nat :=
  (d.periods.map (fun p => b2n (a.x c s day p))).sum

/-- Weekly count of a non-split subject's lessons (`sum(x[c,s,d,p] for d in D
for p in P)`). -/
def countX (d : InputData) (a : Assignment) (c s : String) : Nat :=
  (d.days.map (fun day => dayCountX d a c s day)).sum

/-- Per-day count for a subgroup lesson. -/
def dayCountZ (d : InputData) (a : Assignment) (c s : String) (g : Int) (day : String) : Nat :=
  (d.periods.map (fun p => b2n (a.z c s g day p))).sum

/-- Weekly count of a subgroup's lessons. -/
def countZ (d : InputData) (a : Assignment) (c s : String) (g : Int) : Nat :=
  (d.days.map (fun day => dayCountZ d a c s g day)).sum

/-- Constraint family (2), lines 588-592: weekly plan fulfilled exactly. -/
def checkPlanSums (d : InputData) (a : Assignment) : Bool :=
  d.plan_hours.all (fun e => decide ((countX d a e.1.1 e.1.2 : Int) = e.2))
  && d.subgroup_plan_hours.all
      (fun e => decide ((countZ d a e.1.1 e.1.2.1 e.1.2.2 : Int) = e.2))

/-- Constraint family (2a), lines 594-604: a two-hour subject outside
`paired_subjects` is capped at one lesson per day. -/
def checkDailyCaps (d : InputData) (a : Assignment) : Bool :=
  d.plan_hours.all (fun e =>
    if e.2 = 2 ∧ memB e.1.2 d.paired_subjects ≠ true then
      d.days.all (fun day => decide (dayCountX d a e.1.1 e.1.2 day ≤ 1))
    else true)
  && d.subgroup_plan_hours.all (fun e =>
    if e.2 = 2 ∧ memB e.1.2.1 d.paired_subjects ≠ true then
      d.days.all (fun day => decide (dayCountZ d a e.1.1 e.1.2.1 e.1.2.2 day ≤ 1))
    else true)

/-- The lesson variables of one teacher in one slot
(`teacher_lessons_in_slot`, lines 556-564).  The source indexes `x`/`z`
directly here; a key that is assigned but not materialized raises KeyError
(see `teacherMapMismatch`), so the checker reads the assignment directly. -/
def teacherLessons (d : InputData) (a : Assignment) (t day : String) (p : Int) : List Bool :=
  flatList (fun c => flatList (fun s =>
    if !(memB s d.split_subjects) && decide (find? d.assigned_teacher (c, s) = some t) then
      [a.x c s day p] else []) d.subjects) (classNames d)
  ++ flatList (fun c => flatList (fun s => flatList (fun g =>
      if decide (find? d.subgroup_assigned_teacher (c, s, g) = some t) then
        [a.z c s g day p] else []) d.subgroup_ids) d.split_subjects) (classNames d)

/-- Constraint family (3), lines 607-629: per slot at most one lesson per
teacher (3a), none on the teacher's days off (3b), none on the teacher's
forbidden slots (3c). -/
def checkTeachers (d : InputData) (a : Assignment) : Bool :=
  d.teachers.all (fun t => d.days.all (fun day => d.periods.all (fun p =>
    let lessons := teacherLessons d a t day p
    decide (lessons.count true ≤ 1)
    && (if memB day (getD d.days_off t []) then !(lessons.any id) else true)
    && (if memB (day, p) (getD d.teacher_forbidden_slots t []) then
          !(lessons.any id) else true))))

/-- Constraint family (4), lines 632-662: at most one non-split lesson (4a),
at most one split lesson per subgroup (4b), and no non-split lesson together
with any split lesson (4c; `has_split` substituted by its pinned value). -/
def checkClassSlot (d : InputData) (a : Assignment) : Bool :=
  (classNames d).all (fun c => d.days.all (fun day => d.periods.all (fun p =>
    let nonSplitVals := flatList (fun s =>
      if !(memB s d.split_subjects) && xKey d c s then [a.x c s day p] else []) d.subjects
    decide (nonSplitVals.count true ≤ 1)
    && (d.subgroup_ids.all (fun g =>
          decide ((flatList (fun s =>
            if zKey d c s g then [a.z c s g day p] else []) d.split_subjects).count true ≤ 1)))
    && (if nonSplitVals ≠ [] then
          decide (nonSplitVals.count true + b2n (hasSplitD d a c day p) ≤ 1)
        else true))))

/-- Constraint family (5), first half, lines 666-671: `is_subj_taught` is
pinned to the OR of the subject's materialized subgroup variables. -/
def checkIstLink (d : InputData) (a : Assignment) : Bool :=
  (classNames d).all (fun c => d.split_subjects.all (fun s =>
    d.days.all (fun day => d.periods.all (fun p =>
      a.ist c s day p == (d.subgroup_ids.any (fun g => zM d a c s g day p))))))

/-- `sorted(list(splitS))` of line 674. -/
def splitSorted (d : InputData) : List String :=
  insSortBy strLt d.split_subjects.dedup

/-- Constraint family (5), second half, lines 674-682: two split subjects
whose sorted pair is not in `compatible_pairs` may not be present together. -/
def checkCompat (d : InputData) (a : Assignment) : Bool :=
  (classNames d).all (fun c => d.days.all (fun day => d.periods.all (fun p =>
    (listPairs (splitSorted d)).all (fun pr =>
      if memB pr d.compatible_pairs then true
      else !(a.ist c pr.1 day p && a.ist c pr.2 day p)))))

/-- Per-day occupied-slot count of a class (`day_load`, line 706). -/
def dayLoadY (d : InputData) (a : Assignment) (c day : String) : Nat :=
  (d.periods.map (fun p => b2n (a.y c day p))).sum

/-- Constraint family (6a), lines 701-708: per-day lesson count bounded by
the (default-filled, see `fillGradeMax`) per-grade limit. -/
def checkDayLoad (d : InputData) (a : Assignment) : Bool :=
  (classNames d).all (fun c =>
    match classGradeLast d c with
    | none => true
    | some g =>
        d.days.all (fun day =>
          match find? (fillGradeMax d) g with
          | some lim => decide ((dayLoadY d a c day : Int) ≤ lim)
          | none => true))

/-- `no_lessons_after` for the period at index `idx`: pinned exactly to
"no occupied later period today" by lines 741-744. -/
def nlaD (d : InputData) (a : Assignment) (c day : String) (idx : Nat) : Bool :=
  !((d.periods.drop (idx + 1)).any (fun p2 => a.y c day p2))

/-- Constraint family (6b), lines 715-760 (reached only through the guard of
line 715, see `pipeline`): `day_is_last_lesson` implies "occupied and nothing
after" (the source constrains only this direction, lines 747-749), and a
banned subject's lesson variable implies the slot is not flagged last. -/
def checkNotLast (d : InputData) (a : Assignment) : Bool :=
  (classNames d).all (fun c =>
    match classGradeLast d c with
    | none => true
    | some g =>
        if g = 1 ∨ g = 2 ∨ g = 3 ∨ g = 4 then true
        else
          let banned := getD d.subjects_not_last_lesson g []
          if banned = [] then true
          else
            (d.days.all (fun day => d.periods.enum.all (fun ip =>
              if a.dlast c day ip.2 then a.y c day ip.2 && nlaD d a c day ip.1 else true)))
            && banned.all (fun s =>
              if memB s d.split_subjects then
                d.subgroup_ids.all (fun gid => d.days.all (fun day => d.periods.all (fun p =>
                  if zM d a c s gid day p then !(a.dlast c day p) else true)))
              else
                d.days.all (fun day => d.periods.all (fun p =>
                  if xM d a c s day p then !(a.dlast c day p) else true))))

/-- Consecutive period pairs `(P[idx], P[idx+1])` (lines 782-784). -/
def adjPairsP (d : InputData) : List (Int × Int) :=
  d.periods.zip (d.periods.drop 1)

/-- Constraint family (6c), lines 762-791, for grades 2-4: the english
subject only on `elementary_english_periods`, and no identical non-paired
subject in two adjacent periods. -/
def checkElementary (d : InputData) (a : Assignment) : Bool :=
  (classNames d).all (fun c =>
    match classGradeLast d c with
    | none => true
    | some g =>
        if g = 2 ∨ g = 3 ∨ g = 4 then
          (if d.english_subject_name ≠ "" then
            (if memB d.english_subject_name d.split_subjects then
              d.subgroup_ids.all (fun gid => d.days.all (fun day => d.periods.all (fun p =>
                if !(memB p d.elementary_english_periods)
                   && zKey d c d.english_subject_name gid then
                  !(a.z c d.english_subject_name gid day p) else true)))
            else
              d.days.all (fun day => d.periods.all (fun p =>
                if !(memB p d.elementary_english_periods)
                   && xKey d c d.english_subject_name then
                  !(a.x c d.english_subject_name day p) else true)))
          else true)
          && ((d.subjects.dedup.filter (fun s => !(memB s d.paired_subjects))).all (fun s =>
            d.days.all (fun day => (adjPairsP d).all (fun pp =>
              let v1 := if memB s d.split_subjects then a.ist c s day pp.1
                        else xM d a c s day pp.1
              let v2 := if memB s d.split_subjects then a.ist c s day pp.2
                        else xM d a c s day pp.2
              !(v1 && v2)))))
        else true)

/-- "Subject taught to the class on this day" flag, pinned by lines 816-818. -/
def dayFlagD (d : InputData) (a : Assignment) (c subj day : String) : Bool :=
  if memB subj d.split_subjects then
    d.subgroup_ids.any (fun g => d.periods.any (fun p => zM d a c subj g day p))
  else d.periods.any (fun p => xM d a c subj day p)

/-- Constraint family (6d), lines 795-822: within every window of
`limit + 1` consecutive days, the subject may be present on at most `limit`
days.  `range(len(D) - limit)` is empty for non-positive counts, matching the
Nat truncation (validated limits are ≥ 1). -/
def checkConsecDays (d : InputData) (a : Assignment) : Bool :=
  d.grade_subject_max_consecutive_days.all (fun e =>
    (classNames d).all (fun c =>
      if classGradeLast d c = some e.1 then
        e.2.all (fun sl =>
          let flags := d.days.map (fun day => dayFlagD d a c sl.1 day)
          (List.range (d.days.length - sl.2.toNat)).all (fun i =>
            decide ((((List.range (sl.2.toNat + 1)).map
              (fun j => b2n (flags.getD (i + j) false))).sum : Int) ≤ sl.2)))
      else true))

/-- Constraint family (A), lines 834-843: subgroups of a must-sync split
subject are scheduled in lockstep (equality over every subgroup pair whose
variables are both materialized). -/
def checkMustSync (d : InputData) (a : Assignment) : Bool :=
  (d.must_sync_split_subjects.dedup.filter (fun s => memB s d.split_subjects)).all (fun s =>
    (classNames d).all (fun c => d.days.all (fun day => d.periods.all (fun p =>
      (listPairs d.subgroup_ids).all (fun gg =>
        if zKey d c s gg.1 && zKey d c s gg.2 then
          a.z c s gg.1 day p == a.z c s gg.2 day p
        else true)))))

/-- Satisfaction of the full set of hard constraints specified by the encoder
of `build_and_solve_with_or_tools` (sections 3.2-3.3), in source order.  The
`notLastFlag` argument stands for the value of the
`subjects_not_last_lesson_optimization` read at line 715 — an attribute the
`OptimizationGoals` dataclass does not actually define (see `pipeline`). -/
def checkModel (d : InputData) (notLastFlag : Bool) (a : Assignment) : Bool :=
  checkYLink d a && checkPlanSums d a && checkDailyCaps d a && checkTeachers d a
  && checkClassSlot d a && checkIstLink d a && checkCompat d a && checkDayLoad d a
  && (if notLastFlag then checkNotLast d a else true)
  && checkElementary d a && checkConsecDays d a && checkMustSync d a

/-- OptimizationWeights from src/input_data.py (lines 181-220), with the
python defaults; the two float-valued solver-tuning fields are carried as
rationals. -/
structure OptimizationWeights where
  alpha_runs : Int := 10
  alpha_runs_teacher : Int := 2
  beta_early : Int := 1
  gamma_balance : Int := 1
  delta_tail : Int := 10
  epsilon_pairing : Int := 20
  pref_scale : Int := 1
  last_ok_period : Int := 6
  use_lexico : Bool := false
  lexico_primary : String := "teacher_windows"
  num_search_workers : Int := 16
  random_seed : Option Int := none
  time_limit_s : Option Rat := none
  relative_gap_limit : Rat := 1 / 20

/-- OptimizationGoals from src/input_data.py (lines 222-224).  This dataclass
defines exactly one field; the attributes
`subjects_not_last_lesson_optimization` (read at rasp_or_tools.py line 715)
and `print_timetable_to_console` (read at line 1132) do not exist on it. -/
structure OptimizationGoals where
  teacher_slot_optimization : Bool := true

/-- The values, in a given solution, of the six penalty sums the objective of
lines 1032-1039 combines (each stated before its weight factor is applied). -/
structure ObjStats where
  sumInsideTeacher : Int
  sumInsideClass : Int
  earlySum : Int
  balanceSum : Int
  tailSum : Int
  lonelySum : Int

/-- The single weighted-sum objective formed at lines 1032-1039:
teacher envelopes (gated by `teacher_slot_optimization`, lines 933-965),
class envelopes, early-slot bias, daily balance (its auxiliary terms exist
only when `gamma_balance` is truthy and there are classes, lines 976-984),
tail penalty, and the pairing penalty (lonely terms exist only when
`epsilon_pairing` is truthy and `paired_subjects` is non-empty,
lines 992-1024). -/
def objectiveValue (w : OptimizationWeights) (g : OptimizationGoals)
    (pairedNonempty classesNonempty : Bool) (st : ObjStats) : Int :=
  w.alpha_runs_teacher * (if g.teacher_slot_optimization then st.sumInsideTeacher else 0)
  + w.alpha_runs * st.sumInsideClass
  + w.beta_early * st.earlySum
  + (if w.gamma_balance ≠ 0 ∧ classesNonempty = true then w.gamma_balance * st.balanceSum else 0)
  + w.delta_tail * st.tailSum
  + (if w.epsilon_pairing ≠ 0 ∧ pairedNonempty = true then w.epsilon_pairing * st.lonelySum else 0)

/-- The sequence of solver invocations performed by the solve section of
`build_and_solve_with_or_tools` (lines 1030-1057), one list entry per
invocation, each carrying the objective it minimizes.  The source builds the
single weighted-sum objective, calls `model.Minimize` once and
`solver.Solve` once (line 1057); the comment at lines 1030-1031 states that
lexicographic optimization is disabled, and neither `use_lexico` nor
`lexico_primary` is ever read. -/
def solvePhases (w : OptimizationWeights) (g : OptimizationGoals)
    (pairedNonempty classesNonempty : Bool) : List (ObjStats → Int) :=
  [objectiveValue w g pairedNonempty classesNonempty]

/-- Left-to-right running OR over a day's occupancy pattern
(`prefix_class` / `prefix_teacher`, rasp_or_tools.py lines 889-896: the first
entry equals the pattern's first flag, then each entry is the previous entry
OR the current flag). -/
def prefAux (acc : Bool) : List Bool → List Bool
  | [] => []
  | b :: t => (acc || b) :: prefAux (acc || b) t

/-- `prefix[p]` for every period of the day. -/
def prefOr (l : List Bool) : List Bool := prefAux false l

/-- Right-to-left running OR (`suffix_class` / `suffix_teacher`,
lines 899-907). -/
def sufOr : List Bool → List Bool
  | [] => []
  | b :: t => (b || (sufOr t).headD false) :: sufOr t

/-- `inside[p] = prefix[p] AND suffix[p]`: lines 909-916 pin `inside` to this
conjunction with the three linear inequalities. -/
def insideList (l : List Bool) : List Bool :=
  List.zipWith and (prefOr l) (sufOr l)

/-- The quantity the CP-SAT variant minimizes, per entity and day: the sum of
the inside indicators, i.e. the length of the envelope from the first to the
last occupied period (lines 918-924). -/
def insideSum (l : List Bool) : Nat := (insideList l).count true

/-- The pointwise-least `srun` vector satisfying the PuLP anti-gap
constraints of rasp7.py lines 267-281: the first period's indicator equals
the occupancy flag (line 271), and afterwards exactly the rising edges are
set (the constraints force `srun ≥ y(p) - y(p-1)` and `srun ≤ y(p)`, and
minimization drives `srun` down to that bound; feasibility and minimality
are proved in `srunFeas_srunList` and `srunList_min` below). -/
def srunList (prev : Bool) : List Bool → List Bool
  | [] => []
  | b :: t => (b && !prev) :: srunList b t

/-- The minimized value of the PuLP block-start sum for a fixed occupancy
pattern. -/
def srunSum (l : List Bool) : Nat := (srunList false l).count true

/-- The PuLP `srun` constraints of rasp7.py lines 267-281, as a feasibility
predicate over an occupancy pattern and a candidate srun vector, threading
the previous occupancy flag (`prev = false` before the first period encodes
the equality `srun(p0) == y(p0)` as its two directions). -/
def srunFeasAux (prev : Bool) : List Bool → List Bool → Bool
  | [], [] => true
  | b :: ys, sb :: ss =>
      ((!(b && !prev) || sb) && (!sb || b)) && srunFeasAux b ys ss
  | _, _ => false

/-- OR over a pattern. -/
def anyT (l : List Bool) : Bool := l.any id

/-- A pattern that is a (possibly empty) run of `true` followed only by
`false` — the shape after which no further block may start. -/
def isTF : List Bool → Bool
  | [] => true
  | true :: t => isTF t
  | false :: t => !(anyT t)

/-- A pattern consisting of at most one contiguous block of `true` (leading
falses, one true-run, trailing falses): exactly the gap-free day shapes. -/
def isBlock : List Bool → Bool
  | [] => true
  | false :: t => isBlock t
  | true :: t => isTF t

/-- Recursion-friendly form of `insideSum` with the prefix accumulator made
explicit (bridged to `insideSum` in `insideSum_eq_insideCount`). -/
def insideCount (acc : Bool) : List Bool → Nat
  | [] => 0
  | b :: t => (if (acc || b) && (b || anyT t) then 1 else 0) + insideCount (acc || b) t

theorem sufOr_headD (l : List Bool) : (sufOr l).headD false = anyT l := by
  induction l with
  | nil => rfl
  | cons b t ih =>
      simp only [sufOr, List.headD_cons, ih]
      simp [anyT, List.any_cons]

theorem insideCount_bridge (acc : Bool) (l : List Bool) :
    (List.zipWith and (prefAux acc l) (sufOr l)).count true = insideCount acc l := by
  induction l generalizing acc with
  | nil => rfl
  | cons b t ih =>
      simp only [prefAux, sufOr, List.zipWith_cons_cons, insideCount, List.count_cons,
        sufOr_headD, ih]
      cases h : (acc || b) && (b || anyT t) <;> simp [h] <;> omega

theorem insideSum_eq (l : List Bool) : insideSum l = insideCount false l :=
  insideCount_bridge false l

theorem count_le_insideCount (acc : Bool) (l : List Bool) :
    l.count true ≤ insideCount acc l := by
  induction l generalizing acc with
  | nil => simp [insideCount]
  | cons b t ih =>
      cases b
      · have h := ih acc
        have hcc : (false :: t).count true = t.count true := by simp
        rw [hcc]
        simp only [insideCount, Bool.or_false, Bool.false_or]
        cases hc : acc && anyT t
        · simpa [hc] using h
        · simp [hc]; omega
      · have h := ih true
        have hcc : (true :: t).count true = t.count true + 1 := by simp
        rw [hcc]
        simp only [insideCount, Bool.or_true, Bool.true_or, Bool.true_and, if_true]
        omega

theorem count_of_none (l : List Bool) (h : anyT l = false) : l.count true = 0 := by
  induction l with
  | nil => rfl
  | cons b t ih =>
      cases b
      · simp only [anyT, List.any_cons, id, Bool.false_or] at h
        simp [List.count_cons, ih h]
      · simp [anyT] at h

theorem insideCount_of_none (acc : Bool) (l : List Bool) (h : anyT l = false) :
    insideCount acc l = 0 := by
  induction l generalizing acc with
  | nil => rfl
  | cons b t ih =>
      cases b
      · simp only [anyT, List.any_cons, id, Bool.false_or] at h
        simp [insideCount, anyT, h, ih _ h]
      · simp [anyT] at h

theorem insideCount_true_iff (l : List Bool) :
    insideCount true l = l.count true ↔ isTF l = true := by
  induction l with
  | nil => simp [insideCount, isTF]
  | cons b t ih =>
      cases b
      · cases h : anyT t
        · have h1 := insideCount_of_none true t h
          have h2 := count_of_none t h
          simp [insideCount, isTF, List.count_cons, h, h1, h2]
        · have h1 := count_le_insideCount true t
          simp [insideCount, isTF, List.count_cons, h]
          omega
      · simp only [insideCount, isTF, List.count_cons, Bool.or_true, Bool.true_or,
          Bool.and_self, Bool.true_and, if_true]
        simp only [beq_self_eq_true, if_true]
        constructor
        · intro h; exact ih.mp (by omega)
        · intro h; have := ih.mpr h; omega

theorem insideCount_false_iff (l : List Bool) :
    insideCount false l = l.count true ↔ isBlock l = true := by
  induction l with
  | nil => simp [insideCount, isBlock]
  | cons b t ih =>
      cases b
      · simpa [insideCount, isBlock, List.count_cons] using ih
      · simp only [insideCount, isBlock, List.count_cons, Bool.or_false, Bool.false_or,
          Bool.true_or, Bool.and_self, Bool.true_and, if_true]
        simp only [beq_self_eq_true, if_true]
        constructor
        · intro h; exact (insideCount_true_iff t).mp (by omega)
        · intro h; have := (insideCount_true_iff t).mpr h; omega

theorem srun_count_cons (prev b : Bool) (t : List Bool) :
    (srunList prev (b :: t)).count true
      = (if b && !prev then 1 else 0) + (srunList b t).count true := by
  simp only [srunList, List.count_cons]
  cases h : b && !prev <;> simp [h] <;> omega

theorem srunCount_false_eq_zero_iff (l : List Bool) :
    (srunList false l).count true = 0 ↔ anyT l = false := by
  induction l with
  | nil => simp [srunList, anyT]
  | cons b t ih =>
      cases b
      · simpa [srun_count_cons, anyT, List.any_cons] using ih
      · simp [srun_count_cons, anyT, List.any_cons]

theorem srunCount_true_eq_zero_iff (l : List Bool) :
    (srunList true l).count true = 0 ↔ isTF l = true := by
  induction l with
  | nil => simp [srunList, isTF]
  | cons b t ih =>
      cases b
      · simpa [srun_count_cons, isTF, Bool.not_eq_true] using srunCount_false_eq_zero_iff t
      · simpa [srun_count_cons, isTF] using ih

theorem srunSum_le_one_iff (l : List Bool) :
    srunSum l ≤ 1 ↔ isBlock l = true := by
  induction l with
  | nil => simp [srunSum, srunList, isBlock]
  | cons b t ih =>
      cases b
      · simpa [srunSum, srun_count_cons, isBlock] using ih
      · have h := srunCount_true_eq_zero_iff t
        simp only [srunSum, srun_count_cons, isBlock, Bool.not_false, Bool.and_self,
          if_true]
        constructor
        · intro hh; exact h.mp (by omega)
        · intro hh; have := h.mpr hh; omega

theorem srunFeas_srunList (prev : Bool) (l : List Bool) :
    srunFeasAux prev l (srunList prev l) = true := by
  induction l generalizing prev with
  | nil => rfl
  | cons b t ih =>
      simp only [srunList, srunFeasAux, Bool.and_eq_true]
      refine ⟨⟨?_, ?_⟩, ih b⟩
      · cases b <;> cases prev <;> rfl
      · cases b <;> cases prev <;> rfl

theorem srunList_min (prev : Bool) (l s : List Bool)
    (h : srunFeasAux prev l s = true) :
    (srunList prev l).count true ≤ s.count true := by
  induction l generalizing prev s with
  | nil =>
      cases s with
      | nil => simp [srunList]
      | cons sb ss => simp [srunFeasAux] at h
  | cons b t ih =>
      cases s with
      | nil => simp [srunFeasAux] at h
      | cons sb ss =>
          simp only [srunFeasAux, Bool.and_eq_true] at h
          obtain ⟨⟨h1, _h2⟩, h3⟩ := h
          have hrec := ih b ss h3
          rw [srun_count_cons, List.count_cons]
          cases hb : b && !prev
          · cases sb <;> simp <;> omega
          · rw [hb] at h1
            cases sb
            · simp at h1
            · simp
              omega

/-- A minimal valid instance: one class (grade 5), one subject with two
weekly hours, one teacher, two days of two periods. -/
def exC1 : InputData :=
  { days := ["Mon", "Tue"]
    periods := [1, 2]
    classes := [⟨"5A", 5⟩]
    subjects := ["math"]
    teachers := ["T1"]
    english_subject_name := ""
    split_subjects := []
    subgroup_ids := [1, 2]
    plan_hours := [(("5A", "math"), 2)]
    subgroup_plan_hours := []
    assigned_teacher := [(("5A", "math"), "T1")]
    subgroup_assigned_teacher := []
    days_off := []
    teacher_forbidden_slots := []
    forbidden_slots := []
    grade_max_lessons_per_day := []
    subjects_not_last_lesson := []
    elementary_english_periods := []
    grade_subject_max_consecutive_days := []
    class_slot_weight := []
    teacher_slot_weight := []
    class_subject_day_weight := []
    compatible_pairs := []
    paired_subjects := []
    must_sync_split_subjects := [] }

/-- A model solution for `exC1`: the two math lessons on Monday and Tuesday,
first period. -/
def asgC1 : Assignment :=
  { x := fun c s day p =>
      c == "5A" && s == "math" && p == (1 : Int) && (day == "Mon" || day == "Tue")
    z := fun _ _ _ _ _ => false
    y := fun c day p => c == "5A" && p == (1 : Int) && (day == "Mon" || day == "Tue")
    ist := fun _ _ _ _ => false
    dlast := fun _ _ _ => false }

/-- `exC1` with the two-hour subject marked as paired. -/
def exPaired : InputData := { exC1 with paired_subjects := ["math"] }

/-- A model solution for `exPaired` putting both lessons on Monday, periods
1 and 2 - a double lesson, legal because paired subjects are exempt from the
daily cap. -/
def asgPaired : Assignment :=
  { x := fun c s day p =>
      c == "5A" && s == "math" && day == "Mon" && (p == (1 : Int) || p == (2 : Int))
    z := fun _ _ _ _ _ => false
    y := fun c day p => c == "5A" && day == "Mon" && (p == (1 : Int) || p == (2 : Int))
    ist := fun _ _ _ _ => false
    dlast := fun _ _ _ => false }

/-- A valid instance with two split subjects that have no compatible-pair
entry: subgroup 1 takes one hour of each. -/
def exSplit : InputData :=
  { days := ["Mon"]
    periods := [1, 2]
    classes := [⟨"5A", 5⟩]
    subjects := ["cs", "eng"]
    teachers := ["T1", "T2"]
    english_subject_name := ""
    split_subjects := ["cs", "eng"]
    subgroup_ids := [1, 2]
    plan_hours := []
    subgroup_plan_hours := [(("5A", "cs", 1), 1), (("5A", "eng", 1), 1)]
    assigned_teacher := []
    subgroup_assigned_teacher := [(("5A", "cs", 1), "T1"), (("5A", "eng", 1), "T2")]
    days_off := []
    teacher_forbidden_slots := []
    forbidden_slots := []
    grade_max_lessons_per_day := []
    subjects_not_last_lesson := []
    elementary_english_periods := []
    grade_subject_max_consecutive_days := []
    class_slot_weight := []
    teacher_slot_weight := []
    class_subject_day_weight := []
    compatible_pairs := []
    paired_subjects := []
    must_sync_split_subjects := [] }

/-- A model solution for `exSplit`: cs at period 1, eng at period 2 (the
incompatible subjects never co-occur). -/
def asgSplit : Assignment :=
  { x := fun _ _ _ _ => false
    z := fun c s g day p =>
      c == "5A" && g == (1 : Int) && day == "Mon"
        && ((s == "cs" && p == (1 : Int)) || (s == "eng" && p == (2 : Int)))
    y := fun c day p => c == "5A" && day == "Mon" && (p == (1 : Int) || p == (2 : Int))
    ist := fun c s day p =>
      c == "5A" && day == "Mon"
        && ((s == "cs" && p == (1 : Int)) || (s == "eng" && p == (2 : Int)))
    dlast := fun _ _ _ => false }

/-- A valid instance with a forbidden class slot ("5A", Mon, 1) and one
weekly hour of math. -/
def exForb : InputData :=
  { exC1 with
    plan_hours := [(("5A", "math"), 1)]
    forbidden_slots := [("5A", "Mon", 1)] }

/-- A model solution for `exForb` placing the single lesson exactly on the
forbidden slot. -/
def asgForb : Assignment :=
  { x := fun c s day p => c == "5A" && s == "math" && day == "Mon" && p == (1 : Int)
    z := fun _ _ _ _ _ => false
    y := fun c day p => c == "5A" && day == "Mon" && p == (1 : Int)
    ist := fun _ _ _ _ => false
    dlast := fun _ _ _ => false }

/-- The spec's validator scenario: a teacher assigned 40 weekly hours with
only 5 x 7 = 35 available slots. -/
def exOverload : InputData :=
  { days := ["Mon", "Tue", "Wed", "Thu", "Fri"]
    periods := [1, 2, 3, 4, 5, 6, 7]
    classes := [⟨"5A", 5⟩]
    subjects := ["math"]
    teachers := ["T1"]
    english_subject_name := ""
    split_subjects := []
    subgroup_ids := [1, 2]
    plan_hours := [(("5A", "math"), 40)]
    subgroup_plan_hours := []
    assigned_teacher := [(("5A", "math"), "T1")]
    subgroup_assigned_teacher := []
    days_off := []
    teacher_forbidden_slots := []
    forbidden_slots := []
    grade_max_lessons_per_day := []
    subjects_not_last_lesson := []
    elementary_english_periods := []
    grade_subject_max_consecutive_days := []
    class_slot_weight := []
    teacher_slot_weight := []
    class_subject_day_weight := []
    compatible_pairs := []
    paired_subjects := []
    must_sync_split_subjects := [] }

/-- `exOverload` with an additional, unrelated violation (an unknown subject
listed in `paired_subjects`), to exhibit the cumulative aggregation. -/
def exTwoViol : InputData := { exOverload with paired_subjects := ["phantom"] }

/-- An input with an empty classes list (and otherwise well-formed fields). -/
def exEmptyClasses : InputData :=
  { days := ["Mon"]
    periods := [1]
    classes := []
    subjects := ["math"]
    teachers := ["T1"]
    english_subject_name := ""
    split_subjects := []
    subgroup_ids := [1]
    plan_hours := []
    subgroup_plan_hours := []
    assigned_teacher := []
    subgroup_assigned_teacher := []
    days_off := []
    teacher_forbidden_slots := []
    forbidden_slots := []
    grade_max_lessons_per_day := []
    subjects_not_last_lesson := []
    elementary_english_periods := []
    grade_subject_max_consecutive_days := []
    class_slot_weight := []
    teacher_slot_weight := []
    class_subject_day_weight := []
    compatible_pairs := []
    paired_subjects := []
    must_sync_split_subjects := [] }

/-- `exC1` with the grade-5 daily limit already present in
`grade_max_lessons_per_day`, so the default filling adds nothing. -/
def exGradeFull : InputData := { exC1 with grade_max_lessons_per_day := [(5, 2)] }

theorem checkModel_parts (d : InputData) (f : Bool) (a : Assignment)
    (hm : checkModel d f a = true) :
    checkYLink d a = true ∧ checkPlanSums d a = true ∧ checkDailyCaps d a = true
    ∧ checkTeachers d a = true ∧ checkClassSlot d a = true ∧ checkIstLink d a = true
    ∧ checkCompat d a = true ∧ checkDayLoad d a = true
    ∧ (f = true → checkNotLast d a = true)
    ∧ checkElementary d a = true ∧ checkConsecDays d a = true
    ∧ checkMustSync d a = true := by
  simp only [checkModel, Bool.and_eq_true] at hm
  obtain ⟨⟨⟨⟨⟨⟨⟨⟨⟨⟨⟨h1, h2⟩, h3⟩, h4⟩, h5⟩, h6⟩, h7⟩, h8⟩, h9⟩, h10⟩, h11⟩, h12⟩ := hm
  refine ⟨h1, h2, h3, h4, h5, h6, h7, h8, ?_, h10, h11, h12⟩
  intro hf
  rw [hf] at h9
  simpa using h9


theorem secDays_nil_nodup (d : InputData) (h : secDays d = []) : d.days.Nodup := by
  rw [secDays] at h
  by_cases h0 : d.days = []
  · rw [if_pos h0] at h
    simp at h
  · rw [if_neg h0] at h
    by_cases h2 : dupsB strLt d.days = []
    · exact dupsB_nil_iff.mp h2
    · rw [if_pos h2] at h
      simp at h

theorem validate_nil_secDays (d : InputData) (hv : validateErrors d = []) :
    secDays d = [] := by
  rw [validateErrors] at hv
  simp only [List.append_eq_nil, and_assoc] at hv
  exact hv.1

theorem exists_one_of_sum_one {α : Type} (D : List α) (f : α → Nat)
    (hsum : (D.map f).sum = 1) : ∃ x ∈ D, 1 ≤ f x := by
  induction D with
  | nil => simp at hsum
  | cons a t ih =>
      simp only [List.map_cons, List.sum_cons] at hsum
      by_cases ha : f a = 0
      · rw [ha] at hsum
        simp at hsum
        obtain ⟨x, hx, h1⟩ := ih hsum
        exact ⟨x, List.mem_cons_of_mem _ hx, h1⟩
      · exact ⟨a, List.mem_cons_self _ _, by omega⟩

theorem two_days_of_sum_two {α : Type} (D : List α) (f : α → Nat)
    (hnd : D.Nodup) (hle : ∀ x ∈ D, f x ≤ 1) (hsum : (D.map f).sum = 2) :
    ∃ d1 ∈ D, ∃ d2 ∈ D, d1 ≠ d2 ∧ f d1 = 1 ∧ f d2 = 1 := by
  induction D with
  | nil => simp at hsum
  | cons a t ih =>
      simp only [List.map_cons, List.sum_cons] at hsum
      have hnd' := List.nodup_cons.mp hnd
      have hle' : ∀ x ∈ t, f x ≤ 1 := fun x hx => hle x (List.mem_cons_of_mem _ hx)
      by_cases ha : f a = 0
      · rw [ha] at hsum
        simp at hsum
        obtain ⟨d1, h1, d2, h2, hne, hf1, hf2⟩ := ih hnd'.2 hle' hsum
        exact ⟨d1, List.mem_cons_of_mem _ h1, d2, List.mem_cons_of_mem _ h2, hne, hf1, hf2⟩
      · have hfa : f a = 1 := by
          have := hle a (List.mem_cons_self _ _)
          omega
        rw [hfa] at hsum
        have hsum' : (t.map f).sum = 1 := by omega
        obtain ⟨d2, hd2, hge⟩ := exists_one_of_sum_one t f hsum'
        have hf2 : f d2 = 1 := by
          have := hle' d2 hd2
          omega
        refine ⟨a, List.mem_cons_self _ _, d2, List.mem_cons_of_mem _ hd2, ?_, hfa, hf2⟩
        intro heq
        exact hnd'.1 (heq ▸ hd2)

/-- C1 — Plan fulfillment: on a validated input, every assignment satisfying
the emitted hard constraints schedules, for each `plan_hours` key, exactly
the required number of `x` lessons over all slots, and for each
`subgroup_plan_hours` key exactly the required number of `z` lessons, so the
extracted assigned count equals the configured required hours. -/
theorem C1_plan_fulfillment (d : InputData) (flag : Bool) (a : Assignment)
    (_hv : validateErrors d = []) (hm : checkModel d flag a = true) :
    (∀ c s h, ((c, s), h) ∈ d.plan_hours → (countX d a c s : Int) = h)
    ∧ (∀ c s g h, ((c, s, g), h) ∈ d.subgroup_plan_hours → (countZ d a c s g : Int) = h) := by
  obtain ⟨-, hp, -⟩ := checkModel_parts d flag a hm
  rw [checkPlanSums, Bool.and_eq_true] at hp
  obtain ⟨h1, h2⟩ := hp
  rw [List.all_eq_true] at h1
  rw [List.all_eq_true] at h2
  refine ⟨?_, ?_⟩
  · intro c s h hmem
    exact of_decide_eq_true (h1 _ hmem)
  · intro c s g h hmem
    exact of_decide_eq_true (h2 _ hmem)

theorem C1_plan_fulfillment_witness :
    (countX exC1 asgC1 "5A" "math" : Int) = 2
    ∧ (countZ exSplit asgSplit "5A" "cs" 1 : Int) = 1 := by
  refine ⟨?_, ?_⟩
  · exact (C1_plan_fulfillment exC1 true asgC1 (by decide) (by decide)).1
      "5A" "math" 2 (by decide)
  · exact (C1_plan_fulfillment exSplit true asgSplit (by decide) (by decide)).2
      "5A" "cs" 1 1 (by decide)

/-- C2 counterexample — with `use_lexico := true` (all other fields at their
defaults) the solve section of `build_and_solve_with_or_tools` still performs
exactly one solver invocation, not the two the claim requires. -/
theorem C2_lexico_counterexample :
    (solvePhases { use_lexico := true } {} true true).length = 1
    ∧ (solvePhases { use_lexico := true } {} true true).length ≠ 2 := by
  exact ⟨rfl, by decide⟩

/-- C2 amended — the `use_lexico` / `lexico_primary` configuration is never
read by `build_and_solve_with_or_tools`: for every weight configuration the
solve section performs exactly one solver invocation, minimizing the single
weighted sum of all terms (lines 1030-1057; the source comment there states
that lexicographic optimization is disabled). -/
theorem C2_single_weighted_solve (w : OptimizationWeights) (g : OptimizationGoals)
    (pn cn b : Bool) (s : String) :
    solvePhases { w with use_lexico := b, lexico_primary := s } g pn cn
      = solvePhases w g pn cn
    ∧ (solvePhases w g pn cn).length = 1
    ∧ solvePhases w g pn cn = [objectiveValue w g pn cn] := by
  cases w
  exact ⟨rfl, rfl, rfl⟩

/-- C3 counterexample — the two compactness encodings do not produce equal
minimized quantities: for the occupancy pattern "two adjacent lessons", the
minimized PuLP block-start sum is 1 while the CP-SAT inside-envelope sum
is 2. -/
theorem C3_counterexample :
    srunSum [true, true] = 1 ∧ insideSum [true, true] = 2
    ∧ srunSum [true, true] ≠ insideSum [true, true] := by
  exact ⟨rfl, rfl, by decide⟩

/-- C3 amended — for every fixed daily occupancy pattern, the canonical srun
vector is feasible for the PuLP constraints and its true-count `srunSum` is
the minimized block-start sum (it lower-bounds every feasible vector); the
two encodings are not equal in general, but they attain their minima
together: the minimized block-start sum is at most 1 exactly when the
inside-envelope sum equals the occupied-slot count, both characterizing the
gap-free patterns. -/
theorem C3_encodings_minimized_together (l : List Bool) :
    srunFeasAux false l (srunList false l) = true
    ∧ (∀ s : List Bool, srunFeasAux false l s = true → srunSum l ≤ s.count true)
    ∧ (srunSum l ≤ 1 ↔ insideSum l = l.count true) := by
  refine ⟨srunFeas_srunList false l, fun s hs => srunList_min false l s hs, ?_⟩
  rw [insideSum_eq, srunSum_le_one_iff]
  exact (insideCount_false_iff l).symm

theorem C3_encodings_minimized_together_witness :
    srunSum [true, true] ≤ List.count true [true, true]
    ∧ (srunSum [true, true] ≤ 1 ↔
        insideSum [true, true] = List.count true [true, true]) :=
  ⟨(C3_encodings_minimized_together [true, true]).2.1 [true, true] (by decide),
   (C3_encodings_minimized_together [true, true]).2.2⟩

/-- C4 — evaluation of the validator's error handling at concrete inputs.
On an input whose classes list is empty, the validator crashes with
UnboundLocalError instead of the aggregated ValueError (the claim's "single
ValueError" fails there).  On an input with two independent violations
(unknown paired subject, overloaded teacher) the checks are cumulative: a
single ValueError carries both.  On a fully valid input the validator
returns normally, but the build then raises AttributeError at line 715
before any solver invocation, so "solving proceeds" also fails. -/
theorem C4_validator_error_handling_eval :
    validatorOutcome exEmptyClasses = Except.error PyErr.unboundLocal
    ∧ validatorOutcome exTwoViol
        = Except.error (PyErr.valueError (validateErrors exTwoViol))
    ∧ VErr.pairedUnknown "phantom" ∈ validateErrors exTwoViol
    ∧ VErr.teacherOverCap "T1" 40 35 ∈ validateErrors exTwoViol
    ∧ validateErrors exC1 = []
    ∧ pipeline exC1 = Except.error PyErr.attributeError := by
  exact ⟨rfl, rfl, by decide, by decide, by decide, rfl⟩

/-- C5 — Teacher weekly-capacity check: for every teacher of the input, the
validator's check 5a reports a capacity violation (whose payload is that
teacher's computed load and capacity) exactly when the assigned weekly hours
exceed the available weekly slots, and every such violation appears in the
aggregated validator report. -/
theorem C5_teacher_capacity (d : InputData) (t : String)
    (ht : t ∈ d.teachers.dedup) :
    (VErr.teacherOverCap t (teacherLoad d t) (teacherWeeklyCap d t)
        ∈ teacherCapacityErrors d
      ↔ teacherWeeklyCap d t < teacherLoad d t)
    ∧ (∀ e ∈ teacherCapacityErrors d, e ∈ validateErrors d) := by
  constructor
  · constructor
    · intro hmem
      rw [teacherCapacityErrors] at hmem
      obtain ⟨t', ht', he⟩ := mem_flatList.mp hmem
      by_cases hc : teacherWeeklyCap d t' < teacherLoad d t'
      · rw [if_pos hc] at he
        rw [List.mem_singleton] at he
        have he2 : CapErr.teacherOverCap t (teacherLoad d t) (teacherWeeklyCap d t)
            = CapErr.teacherOverCap t' (teacherLoad d t') (teacherWeeklyCap d t') := by
          injection he
        injection he2 with e1 e2 e3
        subst e1
        exact hc
      · rw [if_neg hc] at he
        cases he
    · intro hc
      rw [teacherCapacityErrors]
      apply mem_flatList.mpr
      refine ⟨t, ht, ?_⟩
      rw [if_pos hc]
      exact List.mem_singleton.mpr rfl
  · intro e he
    rw [validateErrors]
    simp only [List.mem_append]
    tauto

theorem C5_teacher_capacity_witness :
    VErr.teacherOverCap "T1" 40 35 ∈ teacherCapacityErrors exOverload
    ∧ validateErrors exOverload ≠ [] := by
  have h := C5_teacher_capacity exOverload "T1" (by decide)
  have hload : teacherLoad exOverload "T1" = 40 := by decide
  have hcap : teacherWeeklyCap exOverload "T1" = 35 := by decide
  have hmem := h.1.mpr (by rw [hload, hcap]; decide)
  rw [hload, hcap] at hmem
  refine ⟨hmem, ?_⟩
  have hval := h.2 _ hmem
  exact List.ne_nil_of_mem hval

/-- C6 — Split-subject compatibility closure: in every satisfying assignment,
the presence flag `is_subj_taught` of a split subject equals the OR of its
materialized subgroup lesson variables in that slot, and two distinct split
subjects whose pair is absent from `compatible_pairs` in either component
order are never flagged present together in the same class and slot. -/
theorem C6_split_compatibility (d : InputData) (flag : Bool) (a : Assignment)
    (c day : String) (p : Int) (s1 s2 : String)
    (hm : checkModel d flag a = true)
    (hc : c ∈ classNames d) (hd : day ∈ d.days) (hp : p ∈ d.periods)
    (h1 : s1 ∈ d.split_subjects) (h2 : s2 ∈ d.split_subjects) :
    (a.ist c s1 day p = true ↔ ∃ g ∈ d.subgroup_ids, zM d a c s1 g day p = true)
    ∧ (s1 ≠ s2 → (s1, s2) ∉ d.compatible_pairs → (s2, s1) ∉ d.compatible_pairs →
        ¬(a.ist c s1 day p = true ∧ a.ist c s2 day p = true)) := by
  obtain ⟨-, -, -, -, -, hlink, hcompat, -⟩ := checkModel_parts d flag a hm
  constructor
  · rw [checkIstLink] at hlink
    rw [List.all_eq_true] at hlink
    have hl1 := hlink c hc
    rw [List.all_eq_true] at hl1
    have hl2 := hl1 s1 h1
    rw [List.all_eq_true] at hl2
    have hl3 := hl2 day hd
    rw [List.all_eq_true] at hl3
    have hl4 := hl3 p hp
    rw [beq_iff_eq] at hl4
    rw [hl4]
    exact List.any_eq_true
  · intro hne hn1 hn2 hboth
    rw [checkCompat] at hcompat
    rw [List.all_eq_true] at hcompat
    have hc1 := hcompat c hc
    rw [List.all_eq_true] at hc1
    have hc2 := hc1 day hd
    rw [List.all_eq_true] at hc2
    have hc3 := hc2 p hp
    rw [List.all_eq_true] at hc3
    have hs1 : s1 ∈ splitSorted d := mem_insSortBy.mpr (List.mem_dedup.mpr h1)
    have hs2 : s2 ∈ splitSorted d := mem_insSortBy.mpr (List.mem_dedup.mpr h2)
    rcases mem_listPairs hs1 hs2 hne with hpr | hpr
    · have hat := hc3 (s1, s2) hpr
      rw [if_neg (fun hh => hn1 (memB_iff.mp hh))] at hat
      rw [hboth.1, hboth.2] at hat
      simp at hat
    · have hat := hc3 (s2, s1) hpr
      rw [if_neg (fun hh => hn2 (memB_iff.mp hh))] at hat
      rw [hboth.1, hboth.2] at hat
      simp at hat

theorem C6_split_compatibility_witness :
    (asgSplit.ist "5A" "cs" "Mon" 1 = true ↔
      ∃ g ∈ exSplit.subgroup_ids, zM exSplit asgSplit "5A" "cs" g "Mon" 1 = true)
    ∧ ¬(asgSplit.ist "5A" "cs" "Mon" 1 = true
        ∧ asgSplit.ist "5A" "eng" "Mon" 1 = true) := by
  have h := C6_split_compatibility exSplit true asgSplit "5A" "Mon" 1 "cs" "eng"
    (by decide) (by decide) (by decide) (by decide) (by decide) (by decide)
  exact ⟨h.1, h.2 (by decide) (by decide) (by decide)⟩

/-- C7 — Daily repetition cap: on a validated input, a (class, subject) or
(class, subject, subgroup) with exactly two required weekly hours and a
subject outside `paired_subjects` is scheduled at most once per day by every
satisfying assignment, hence its two weekly lessons land on two distinct
days; and paired subjects are exempt: a satisfying assignment exists that
schedules a paired two-hour subject twice on the same day. -/
theorem C7_daily_repetition_cap :
    (∀ (d : InputData) (flag : Bool) (a : Assignment) (c s : String),
      validateErrors d = [] → checkModel d flag a = true →
      ((c, s), (2 : Int)) ∈ d.plan_hours → s ∉ d.paired_subjects →
      (∀ day ∈ d.days, dayCountX d a c s day ≤ 1)
      ∧ ∃ d1 ∈ d.days, ∃ d2 ∈ d.days, d1 ≠ d2
          ∧ dayCountX d a c s d1 = 1 ∧ dayCountX d a c s d2 = 1)
    ∧ (∀ (d : InputData) (flag : Bool) (a : Assignment) (c s : String) (g : Int),
      validateErrors d = [] → checkModel d flag a = true →
      ((c, s, g), (2 : Int)) ∈ d.subgroup_plan_hours → s ∉ d.paired_subjects →
      (∀ day ∈ d.days, dayCountZ d a c s g day ≤ 1)
      ∧ ∃ d1 ∈ d.days, ∃ d2 ∈ d.days, d1 ≠ d2
          ∧ dayCountZ d a c s g d1 = 1 ∧ dayCountZ d a c s g d2 = 1)
    ∧ (∃ (d : InputData) (a : Assignment) (c s day : String),
      validateErrors d = [] ∧ checkModel d true a = true
      ∧ ((c, s), (2 : Int)) ∈ d.plan_hours ∧ s ∈ d.paired_subjects
      ∧ dayCountX d a c s day = 2) := by
  refine ⟨?_, ?_, ?_⟩
  · intro d flag a c s hv hm hmem hpair
    obtain ⟨-, hplan, hcaps, -⟩ := checkModel_parts d flag a hm
    have hcap1 : ∀ day ∈ d.days, dayCountX d a c s day ≤ 1 := by
      rw [checkDailyCaps, Bool.and_eq_true] at hcaps
      have hx := hcaps.1
      rw [List.all_eq_true] at hx
      have h0 := hx (((c, s), (2 : Int))) hmem
      by_cases hcnd : (2 : Int) = 2 ∧ memB s d.paired_subjects ≠ true
      · rw [if_pos hcnd] at h0
        rw [List.all_eq_true] at h0
        intro day hday
        exact of_decide_eq_true (h0 day hday)
      · exact absurd ⟨rfl, fun hh => hpair (memB_iff.mp hh)⟩ hcnd
    have htot : countX d a c s = 2 := by
      rw [checkPlanSums, Bool.and_eq_true] at hplan
      have hone := hplan.1
      rw [List.all_eq_true] at hone
      have h2 : (countX d a c s : Int) = 2 := of_decide_eq_true (hone _ hmem)
      omega
    have hnd : d.days.Nodup := secDays_nil_nodup d (validate_nil_secDays d hv)
    exact ⟨hcap1, two_days_of_sum_two d.days (fun day => dayCountX d a c s day)
      hnd hcap1 htot⟩
  · intro d flag a c s g hv hm hmem hpair
    obtain ⟨-, hplan, hcaps, -⟩ := checkModel_parts d flag a hm
    have hcap1 : ∀ day ∈ d.days, dayCountZ d a c s g day ≤ 1 := by
      rw [checkDailyCaps, Bool.and_eq_true] at hcaps
      have hx := hcaps.2
      rw [List.all_eq_true] at hx
      have h0 := hx (((c, s, g), (2 : Int))) hmem
      by_cases hcnd : (2 : Int) = 2 ∧ memB s d.paired_subjects ≠ true
      · rw [if_pos hcnd] at h0
        rw [List.all_eq_true] at h0
        intro day hday
        exact of_decide_eq_true (h0 day hday)
      · exact absurd ⟨rfl, fun hh => hpair (memB_iff.mp hh)⟩ hcnd
    have htot : countZ d a c s g = 2 := by
      rw [checkPlanSums, Bool.and_eq_true] at hplan
      have hone := hplan.2
      rw [List.all_eq_true] at hone
      have h2 : (countZ d a c s g : Int) = 2 := of_decide_eq_true (hone _ hmem)
      omega
    have hnd : d.days.Nodup := secDays_nil_nodup d (validate_nil_secDays d hv)
    exact ⟨hcap1, two_days_of_sum_two d.days (fun day => dayCountZ d a c s g day)
      hnd hcap1 htot⟩
  · exact ⟨exPaired, asgPaired, "5A", "math", "Mon", by decide, by decide,
      by decide, by decide, by decide⟩

theorem C7_daily_repetition_cap_witness :
    (∀ day ∈ exC1.days, dayCountX exC1 asgC1 "5A" "math" day ≤ 1)
    ∧ ∃ d1 ∈ exC1.days, ∃ d2 ∈ exC1.days, d1 ≠ d2
        ∧ dayCountX exC1 asgC1 "5A" "math" d1 = 1
        ∧ dayCountX exC1 asgC1 "5A" "math" d2 = 1 :=
  C7_daily_repetition_cap.1 exC1 true asgC1 "5A" "math" (by decide) (by decide)
    (by decide) (by decide)

/-- C8 — Forbidden class slots are not enforced by the CP-SAT reference
encoder: `exForb` declares ("5A", Mon, 1) forbidden and passes validation,
yet the assignment placing its sole lesson exactly there satisfies every
emitted hard constraint (under either value of the not-last flag) while the
class-occupied flag at the forbidden slot is true.  The builder never reads
`forbidden_slots` outside the validator; the PuLP variant (rasp7.py lines
152-155) does force `y == 0` there, and input_data.py documents the field as
a hard ban. -/
theorem C8_forbidden_slot_not_enforced :
    ("5A", "Mon", (1 : Int)) ∈ exForb.forbidden_slots
    ∧ validateErrors exForb = []
    ∧ (∀ flag : Bool, checkModel exForb flag asgForb = true)
    ∧ asgForb.y "5A" "Mon" 1 = true := by
  refine ⟨by decide, by decide, ?_, rfl⟩
  intro flag
  cases flag
  · decide
  · decide

/-- C9 — Not-last-lesson policy: model construction does NOT succeed.  Even
on a fully valid input, `build_and_solve_with_or_tools` raises
AttributeError at line 715 (the `OptimizationGoals` dataclass has no
`subjects_not_last_lesson_optimization` field), and no input at all can make
a run complete: the pipeline never returns normally. -/
theorem C9_not_last_lesson_construction_fails :
    validateErrors exC1 = []
    ∧ pipeline exC1 = Except.error PyErr.attributeError
    ∧ ∀ (d : InputData) (u : Unit), pipeline d ≠ Except.ok u := by
  refine ⟨by decide, rfl, ?_⟩
  intro d u
  unfold pipeline
  cases h : validatorOutcome d with
  | error e => simp
  | ok v =>
      by_cases hm : teacherMapMismatch d = true
      · simp [hm]
      · simp [hm]

/-- C10 counterexample — constructing the model does mutate the input: on
`exC1` (whose grade table is empty and whose one class has grade 5, with two
periods) the call leaves `grade_max_lessons_per_day` holding the new entry
(5, 2), so the field does not hold the same entries as before. -/
theorem C10_mutation_counterexample :
    exC1.grade_max_lessons_per_day = []
    ∧ (dataAfterBuild exC1).grade_max_lessons_per_day = [(5, 2)]
    ∧ dataAfterBuild exC1 ≠ exC1 := by
  exact ⟨rfl, by decide, by decide⟩

/-- C10 amended — frame property of model construction: every field except
`grade_max_lessons_per_day` is left unchanged; that field is unchanged iff
every class grade already has an entry, and on runs that reach line 698
(validation passed, no teacher-map KeyError) it becomes the default-filled
table `fillGradeMax`, gaining the entry `g ↦ max(periods)` for every class
grade that lacked one. -/
theorem C10_frame_mutation (d : InputData) :
    dataAfterBuild d
      = { d with
          grade_max_lessons_per_day := (dataAfterBuild d).grade_max_lessons_per_day }
    ∧ ((∀ ci ∈ d.classes, containsKey d.grade_max_lessons_per_day ci.grade = true) →
        dataAfterBuild d = d)
    ∧ (validatorOutcome d = Except.ok () → teacherMapMismatch d = false →
        (dataAfterBuild d).grade_max_lessons_per_day = fillGradeMax d) := by
  have hfill : (∀ ci ∈ d.classes, containsKey d.grade_max_lessons_per_day ci.grade = true) →
      fillGradeMax d = d.grade_max_lessons_per_day := by
    intro hall
    rw [fillGradeMax]
    have hnilf : ((uniqueGrades d).filter
        (fun g => !(containsKey d.grade_max_lessons_per_day g))) = [] := by
      rw [List.filter_eq_nil_iff]
      intro g hg
      rw [uniqueGrades] at hg
      have hg2 := List.mem_dedup.mp hg
      obtain ⟨c, _hc, hgc⟩ := List.mem_filterMap.mp hg2
      rw [classGradeLast] at hgc
      have hmem := find?_mem hgc
      rw [List.mem_reverse] at hmem
      obtain ⟨ci, hci, heq⟩ := List.mem_map.mp hmem
      have hgr : ci.grade = g := congrArg Prod.snd heq
      have hck := hall ci hci
      rw [hgr] at hck
      simp [hck]
    rw [hnilf]
    simp
  refine ⟨?_, ?_, ?_⟩
  · unfold dataAfterBuild
    cases h : validatorOutcome d with
    | error e => rfl
    | ok v =>
        by_cases hm : teacherMapMismatch d = true
        · simp [hm]
        · simp [hm]
  · intro hall
    unfold dataAfterBuild
    cases h : validatorOutcome d with
    | error e => rfl
    | ok v =>
        by_cases hm : teacherMapMismatch d = true
        · simp [hm]
        · rw [if_neg hm, hfill hall]
  · intro hok hmm
    unfold dataAfterBuild
    rw [hok]
    simp [hmm]

theorem C10_frame_mutation_witness :
    dataAfterBuild exGradeFull = exGradeFull
    ∧ (dataAfterBuild exC1).grade_max_lessons_per_day = fillGradeMax exC1 :=
  ⟨(C10_frame_mutation exGradeFull).2.1 (by decide),
   (C10_frame_mutation exC1).2.2 (by rfl) (by decide)⟩

end Rasp
